import Mathlib

/-!
# Verification of the scylla-rust-wrapper boundary layer

Shallow embedding of the ownership / iterator / configuration machinery of the
`scylla-rust-wrapper` crate (the C-ABI compatibility layer over the Rust driver),
together with proofs about the claims of its natural-language specification.

Conventions of the embedding:
* Rust `Vec<T>` and `HashMap<K, V>` become `List T` and association lists
  `List (K × V)`; `.iter().nth(i)` and `.get(i)` become `List.get?`.
* `Option<T>` becomes `Option T`; a null `CassConstPtr<T>` is `none`, a non-null
  pointer to a borrowed value is `some` of that value.
* A Rust panic (a failed `unwrap`) is `Except.error ()`; a normal return is
  `Except.ok`.  Functions that cannot panic are written directly.
* `Arc<T>` sharing, where a claim is about allocation identity, is made explicit
  by a heap of reference-counted blocks (see `BatchHeap` below); elsewhere an
  `Arc<T>` field is carried by value, mirroring the fact that the wrapped value
  is immutable through that handle.
* Machine integers (`u64`/`usize`/`c_uint`) become `Nat`; the only numeric
  conversion in the verified code, `u64 -> usize` via `try_into().unwrap()`,
  is an identity on a 64-bit target and is embedded as such.
-/

/-- Opaque payload standing for `scylla::frame::response::result::CqlValue`.
The driver library is an external collaborator; none of the verified functions
inspect the payload of a regular value. -/
structure CqlValue where
  val : Nat
deriving Repr, DecidableEq

/-- Modelled from the spec: `cass_types.rs` is not under src/.  The type tree of
a value is never inspected by the functions verified here, so it is kept as an
opaque marker. -/
structure CassDataType where
  tag : Nat
deriving Repr, DecidableEq

/-- `ColumnSpec` of the external driver; only its `name` field is read by the
wrapper code under verification. -/
structure ColumnSpec where
  name : String
deriving Repr, DecidableEq

/-- `CassResultData` (query_result.rs): metadata attached to a result. -/
structure CassResultData where
  paging_state : Option (List Nat)
  col_specs : List ColumnSpec
  tracing_id : Option Nat
deriving Repr, DecidableEq

mutual

/-- `Value` (query_result.rs). -/
inductive Value where
  | RegularValue : CqlValue → Value
  | CollectionValue : Collection → Value

/-- `Collection` (query_result.rs). -/
inductive Collection where
  | List : List CassValue → Collection
  | Map : List (CassValue × CassValue) → Collection
  | Set : List CassValue → Collection
  | UserDefinedType : (keyspace : String) → (type_name : String) →
      (fields : List (String × Option CassValue)) → Collection
  | Tuple : List (Option CassValue) → Collection

/-- `CassValue` (query_result.rs): `value` plus its (opaque) `value_type`. -/
inductive CassValue where
  | mk : Option Value → CassDataType → CassValue

end

/-- Field accessor for `CassValue.value`. -/
def CassValue.value : CassValue → Option Value
  | .mk v _ => v

/-- Field accessor for `CassValue.value_type`. -/
def CassValue.value_type : CassValue → CassDataType
  | .mk _ t => t

/-- `CassRow` (query_result.rs). -/
structure CassRow where
  columns : List CassValue
  result_metadata : CassResultData

/-- `CassResult` (query_result.rs): `rows` is `None` for non-rows results. -/
structure CassResult where
  rows : Option (List CassRow)
  metadata : CassResultData

/-! ## C1: `cass_result_first_row` and `cass_row_get_column` -/

/-- `cass_result_first_row` (query_result.rs, lines 1229-1240), translated
branch by branch, a panic becoming `Except.error ()`:

    if result.rows.is_some() || result.rows.as_ref().unwrap().is_empty() {
        return RefFFI::as_ptr(result.rows.as_ref().unwrap().first().unwrap());
    }
    CassConstPtr::null()

When `rows` is `Some rs` the first disjunct is true and the branch is taken:
`first().unwrap()` yields the first row, or panics when `rs` is empty.  When
`rows` is `None` the first disjunct is false and evaluating the second one
unwraps `None`, which panics.  The trailing `null()` is unreachable. -/
def cass_result_first_row (result : CassResult) : Except Unit (Option CassRow) :=
  match result.rows with
  | some rs =>
      match rs.head? with
      | some r => .ok (some r)
      | none => .error ()
  | none => .error ()

/-- `cass_row_get_column` (query_result.rs, lines 839-853): out-of-range index
returns the null sentinel. -/
def cass_row_get_column (row : CassRow) (index : Nat) : Option CassValue :=
  row.columns.get? index

/-! ## Schema metadata model (metadata.rs) -/

/-- `CassColumnType` (generated `cppdriver_column_type.rs`, not under src/);
the four variants produced by `create_table_metadata`. -/
inductive CassColumnType where
  | CASS_COLUMN_TYPE_REGULAR
  | CASS_COLUMN_TYPE_PARTITION_KEY
  | CASS_COLUMN_TYPE_CLUSTERING_KEY
  | CASS_COLUMN_TYPE_STATIC
deriving Repr, DecidableEq

/-- `CassColumnMeta` (metadata.rs). -/
structure CassColumnMeta where
  name : String
  column_type : CassDataType
  column_kind : CassColumnType
deriving Repr, DecidableEq

/-- `std::sync::Weak<T>`: a weak back-reference.  `dead` is a reference whose
strong owner has been destroyed; `alive` still reaches the owned value. -/
inductive WeakRef (α : Type) where
  | dead : WeakRef α
  | alive : α → WeakRef α
deriving Repr, DecidableEq

/-- `Weak::upgrade`: the checked resolution of a weak reference. -/
def WeakRef.upgrade : WeakRef α → Option α
  | .dead => none
  | .alive a => some a

mutual

/-- `CassTableMeta` (metadata.rs); `HashMap`s become association lists. -/
inductive CassTableMeta where
  | mk : (name : String) → (columns_metadata : List (String × CassColumnMeta)) →
      (partition_keys : List String) → (clustering_keys : List String) →
      (views : List (String × CassMaterializedViewMeta)) → CassTableMeta

/-- `CassMaterializedViewMeta` (metadata.rs): its `base_table` is a
`Weak<CassTableMeta>`. -/
inductive CassMaterializedViewMeta where
  | mk : (name : String) → (view_metadata : CassTableMeta) →
      (base_table : WeakRef CassTableMeta) → CassMaterializedViewMeta

end

/-- Field accessor for `CassTableMeta.name`. -/
def CassTableMeta.name : CassTableMeta → String
  | .mk n _ _ _ _ => n

/-- Field accessor for `CassTableMeta.columns_metadata`. -/
def CassTableMeta.columns_metadata : CassTableMeta → List (String × CassColumnMeta)
  | .mk _ c _ _ _ => c

/-- Field accessor for `CassTableMeta.partition_keys`. -/
def CassTableMeta.partition_keys : CassTableMeta → List String
  | .mk _ _ p _ _ => p

/-- Field accessor for `CassTableMeta.clustering_keys`. -/
def CassTableMeta.clustering_keys : CassTableMeta → List String
  | .mk _ _ _ c _ => c

/-- Field accessor for `CassTableMeta.views`. -/
def CassTableMeta.views : CassTableMeta → List (String × CassMaterializedViewMeta)
  | .mk _ _ _ _ v => v

/-- Field accessor for `CassMaterializedViewMeta.name`. -/
def CassMaterializedViewMeta.name : CassMaterializedViewMeta → String
  | .mk n _ _ => n

/-- Field accessor for `CassMaterializedViewMeta.view_metadata`. -/
def CassMaterializedViewMeta.view_metadata : CassMaterializedViewMeta → CassTableMeta
  | .mk _ v _ => v

/-- Field accessor for `CassMaterializedViewMeta.base_table`. -/
def CassMaterializedViewMeta.base_table : CassMaterializedViewMeta → WeakRef CassTableMeta
  | .mk _ _ b => b

/-- `CassKeyspaceMeta` (metadata.rs). -/
structure CassKeyspaceMeta where
  name : String
  user_defined_type_data_type : List (String × CassDataType)
  tables : List (String × CassTableMeta)
  views : List (String × CassMaterializedViewMeta)

/-- `CassSchemaMeta` (metadata.rs). -/
structure CassSchemaMeta where
  keyspaces : List (String × CassKeyspaceMeta)

/-! ## C7: `cass_materialized_view_meta_base_table` -/

/-- `cass_materialized_view_meta_base_table` (metadata.rs, lines 435-441):

    RefFFI::as_ptr(view_meta.base_table.upgrade().unwrap().as_ref())

The weak reference is resolved with the checked `upgrade`, but its result is
then `unwrap`ped: a dead back-reference panics (`Except.error ()`) instead of
producing the null sentinel (`Except.ok none`). -/
def cass_materialized_view_meta_base_table (view_meta : CassMaterializedViewMeta) :
    Except Unit (Option CassTableMeta) :=
  match view_meta.base_table.upgrade with
  | some t => .ok (some t)
  | none => .error ()

/-! ## The heterogeneous iterator (query_result.rs) -/

/-- `CassResultIterator` (query_result.rs); the `Arc<CassResult>` is carried by
value (the result is immutable through it). -/
structure CassResultIterator where
  result : CassResult
  position : Option Nat

/-- `CassRowIterator` (query_result.rs); the borrowed row is carried by value. -/
structure CassRowIterator where
  row : CassRow
  position : Option Nat

/-- `CassCollectionIterator` (query_result.rs). -/
structure CassCollectionIterator where
  value : CassValue
  count : Nat
  position : Option Nat

/-- `CassMapIterator` (query_result.rs). -/
structure CassMapIterator where
  value : CassValue
  count : Nat
  position : Option Nat

/-- `CassUdtIterator` (query_result.rs). -/
structure CassUdtIterator where
  value : CassValue
  count : Nat
  position : Option Nat

/-- `CassSchemaMetaIterator` (query_result.rs). -/
structure CassSchemaMetaIterator where
  value : CassSchemaMeta
  count : Nat
  position : Option Nat

/-- `CassKeyspaceMetaIterator` (query_result.rs). -/
structure CassKeyspaceMetaIterator where
  value : CassKeyspaceMeta
  count : Nat
  position : Option Nat

/-- `CassTableMetaIterator` (query_result.rs). -/
structure CassTableMetaIterator where
  value : CassTableMeta
  count : Nat
  position : Option Nat

/-- `CassViewMetaIterator` (query_result.rs). -/
structure CassViewMetaIterator where
  value : CassMaterializedViewMeta
  count : Nat
  position : Option Nat

/-- `CassIterator` (query_result.rs): one tagged cursor type over all
traversable collections. -/
inductive CassIterator where
  | CassResultIterator : CassResultIterator → CassIterator
  | CassRowIterator : CassRowIterator → CassIterator
  | CassCollectionIterator : CassCollectionIterator → CassIterator
  | CassMapIterator : CassMapIterator → CassIterator
  | CassUdtIterator : CassUdtIterator → CassIterator
  | CassSchemaMetaIterator : CassSchemaMetaIterator → CassIterator
  | CassKeyspaceMetaTableIterator : CassKeyspaceMetaIterator → CassIterator
  | CassKeyspaceMetaUserTypeIterator : CassKeyspaceMetaIterator → CassIterator
  | CassKeyspaceMetaViewIterator : CassKeyspaceMetaIterator → CassIterator
  | CassTableMetaIterator : CassTableMetaIterator → CassIterator
  | CassViewMetaIterator : CassViewMetaIterator → CassIterator

/-- `cass_iterator_next` (query_result.rs, lines 139-235), translated arm by
arm.  Each arm computes `new_pos = position.map_or(0, |p| p + 1)`, stores it,
and reports whether `new_pos` is within bounds.  The `u64 -> usize` conversion
`count.try_into().unwrap()` for the collection/map/UDT arms is the identity on
a 64-bit target, so the function is total. -/
def cass_iterator_next : CassIterator → CassIterator × Bool
  | .CassResultIterator result_iterator =>
      let new_pos : Nat := result_iterator.position.elim 0 (· + 1)
      let upd := { result_iterator with position := some new_pos }
      match result_iterator.result.rows with
      | some rs => (.CassResultIterator upd, decide (new_pos < rs.length))
      | none => (.CassResultIterator upd, false)
  | .CassRowIterator row_iterator =>
      let new_pos : Nat := row_iterator.position.elim 0 (· + 1)
      (.CassRowIterator { row_iterator with position := some new_pos },
        decide (new_pos < row_iterator.row.columns.length))
  | .CassCollectionIterator collection_iterator =>
      let new_pos : Nat := collection_iterator.position.elim 0 (· + 1)
      (.CassCollectionIterator { collection_iterator with position := some new_pos },
        decide (new_pos < collection_iterator.count))
  | .CassMapIterator map_iterator =>
      let new_pos : Nat := map_iterator.position.elim 0 (· + 1)
      (.CassMapIterator { map_iterator with position := some new_pos },
        decide (new_pos < map_iterator.count))
  | .CassUdtIterator udt_iterator =>
      let new_pos : Nat := udt_iterator.position.elim 0 (· + 1)
      (.CassUdtIterator { udt_iterator with position := some new_pos },
        decide (new_pos < udt_iterator.count))
  | .CassSchemaMetaIterator schema_meta_iterator =>
      let new_pos : Nat := schema_meta_iterator.position.elim 0 (· + 1)
      (.CassSchemaMetaIterator { schema_meta_iterator with position := some new_pos },
        decide (new_pos < schema_meta_iterator.count))
  | .CassKeyspaceMetaTableIterator keyspace_meta_iterator =>
      let new_pos : Nat := keyspace_meta_iterator.position.elim 0 (· + 1)
      (.CassKeyspaceMetaTableIterator { keyspace_meta_iterator with position := some new_pos },
        decide (new_pos < keyspace_meta_iterator.count))
  | .CassKeyspaceMetaUserTypeIterator keyspace_meta_iterator =>
      let new_pos : Nat := keyspace_meta_iterator.position.elim 0 (· + 1)
      (.CassKeyspaceMetaUserTypeIterator { keyspace_meta_iterator with position := some new_pos },
        decide (new_pos < keyspace_meta_iterator.count))
  | .CassKeyspaceMetaViewIterator keyspace_meta_iterator =>
      let new_pos : Nat := keyspace_meta_iterator.position.elim 0 (· + 1)
      (.CassKeyspaceMetaViewIterator { keyspace_meta_iterator with position := some new_pos },
        decide (new_pos < keyspace_meta_iterator.count))
  | .CassTableMetaIterator table_iterator =>
      let new_pos : Nat := table_iterator.position.elim 0 (· + 1)
      (.CassTableMetaIterator { table_iterator with position := some new_pos },
        decide (new_pos < table_iterator.count))
  | .CassViewMetaIterator view_iterator =>
      let new_pos : Nat := view_iterator.position.elim 0 (· + 1)
      (.CassViewMetaIterator { view_iterator with position := some new_pos },
        decide (new_pos < view_iterator.count))

/-- `cass_iterator_get_row` (query_result.rs, lines 237-264): defined only for
the result iterator; unstarted position or out-of-range lookup gives null. -/
def cass_iterator_get_row : CassIterator → Option CassRow
  | .CassResultIterator result_iterator =>
      match result_iterator.position with
      | none => none
      | some pos => result_iterator.result.rows.bind (fun rs => rs.get? pos)
  | _ => none

/-- `cass_iterator_get_column` (query_result.rs, lines 266-288): defined only
for the row iterator. -/
def cass_iterator_get_column : CassIterator → Option CassValue
  | .CassRowIterator row_iterator =>
      match row_iterator.position with
      | none => none
      | some pos => row_iterator.row.columns.get? pos
  | _ => none

/-- `cass_iterator_get_value` (query_result.rs, lines 290-319): defined only
for the collection iterator over a list, set or tuple. -/
def cass_iterator_get_value : CassIterator → Option CassValue
  | .CassCollectionIterator collection_iterator =>
      match collection_iterator.position with
      | none => none
      | some pos =>
        match collection_iterator.value.value with
        | some (.CollectionValue (.List l)) => l.get? pos
        | some (.CollectionValue (.Set s)) => s.get? pos
        | some (.CollectionValue (.Tuple t)) => (t.get? pos).bind id
        | _ => none
  | _ => none

/-- `cass_iterator_get_map_key` (query_result.rs, lines 321-345). -/
def cass_iterator_get_map_key : CassIterator → Option CassValue
  | .CassMapIterator map_iterator =>
      match map_iterator.position with
      | none => none
      | some pos =>
        match map_iterator.value.value with
        | some (.CollectionValue (.Map m)) => (m.get? pos).map Prod.fst
        | _ => none
  | _ => none

/-- `cass_iterator_get_map_value` (query_result.rs, lines 347-372). -/
def cass_iterator_get_map_value : CassIterator → Option CassValue
  | .CassMapIterator map_iterator =>
      match map_iterator.position with
      | none => none
      | some pos =>
        match map_iterator.value.value with
        | some (.CollectionValue (.Map m)) => (m.get? pos).map Prod.snd
        | _ => none
  | _ => none

/-- `cass_iterator_get_user_type_field_value` (query_result.rs, lines 409-438). -/
def cass_iterator_get_user_type_field_value : CassIterator → Option CassValue
  | .CassUdtIterator udt_iterator =>
      match udt_iterator.position with
      | none => none
      | some pos =>
        match udt_iterator.value.value with
        | some (.CollectionValue (.UserDefinedType _ _ fields)) =>
            (fields.get? pos).bind Prod.snd
        | _ => none
  | _ => none

/-- `cass_iterator_get_keyspace_meta` (query_result.rs, lines 440-465). -/
def cass_iterator_get_keyspace_meta : CassIterator → Option CassKeyspaceMeta
  | .CassSchemaMetaIterator schema_meta_iterator =>
      match schema_meta_iterator.position with
      | none => none
      | some pos => (schema_meta_iterator.value.keyspaces.get? pos).map Prod.snd
  | _ => none

/-- `cass_iterator_get_table_meta` (query_result.rs, lines 467-492). -/
def cass_iterator_get_table_meta : CassIterator → Option CassTableMeta
  | .CassKeyspaceMetaTableIterator keyspace_meta_iterator =>
      match keyspace_meta_iterator.position with
      | none => none
      | some pos => (keyspace_meta_iterator.value.tables.get? pos).map Prod.snd
  | _ => none

/-- `cass_iterator_get_user_type` (query_result.rs, lines 494-519). -/
def cass_iterator_get_user_type : CassIterator → Option CassDataType
  | .CassKeyspaceMetaUserTypeIterator keyspace_meta_iterator =>
      match keyspace_meta_iterator.position with
      | none => none
      | some pos =>
          (keyspace_meta_iterator.value.user_defined_type_data_type.get? pos).map Prod.snd
  | _ => none

/-- `cass_iterator_get_column_meta` (query_result.rs, lines 521-565): defined
for the table-meta iterator (over its columns) and the view-meta iterator. -/
def cass_iterator_get_column_meta : CassIterator → Option CassColumnMeta
  | .CassTableMetaIterator table_meta_iterator =>
      match table_meta_iterator.position with
      | none => none
      | some pos => (table_meta_iterator.value.columns_metadata.get? pos).map Prod.snd
  | .CassViewMetaIterator view_meta_iterator =>
      match view_meta_iterator.position with
      | none => none
      | some pos =>
          (view_meta_iterator.value.view_metadata.columns_metadata.get? pos).map Prod.snd
  | _ => none

/-- `cass_iterator_get_materialized_view_meta` (query_result.rs, lines
567-602): defined for the keyspace-view iterator and the table-meta iterator
(over its views). -/
def cass_iterator_get_materialized_view_meta : CassIterator → Option CassMaterializedViewMeta
  | .CassKeyspaceMetaViewIterator keyspace_meta_iterator =>
      match keyspace_meta_iterator.position with
      | none => none
      | some pos => (keyspace_meta_iterator.value.views.get? pos).map Prod.snd
  | .CassTableMetaIterator table_meta_iterator =>
      match table_meta_iterator.position with
      | none => none
      | some pos => (table_meta_iterator.value.views.get? pos).map Prod.snd
  | _ => none

/-! ## Helpers for reasoning about the iterator state machine -/

/-- The stored cursor position of an iterator (`None` before the first
`cass_iterator_next` call). -/
def CassIterator.position : CassIterator → Option Nat
  | .CassResultIterator it => it.position
  | .CassRowIterator it => it.position
  | .CassCollectionIterator it => it.position
  | .CassMapIterator it => it.position
  | .CassUdtIterator it => it.position
  | .CassSchemaMetaIterator it => it.position
  | .CassKeyspaceMetaTableIterator it => it.position
  | .CassKeyspaceMetaUserTypeIterator it => it.position
  | .CassKeyspaceMetaViewIterator it => it.position
  | .CassTableMetaIterator it => it.position
  | .CassViewMetaIterator it => it.position

/-- The same iterator with its cursor position replaced; `cass_iterator_next`
changes nothing but the position. -/
def CassIterator.withPosition : CassIterator → Option Nat → CassIterator
  | .CassResultIterator it, p => .CassResultIterator { it with position := p }
  | .CassRowIterator it, p => .CassRowIterator { it with position := p }
  | .CassCollectionIterator it, p => .CassCollectionIterator { it with position := p }
  | .CassMapIterator it, p => .CassMapIterator { it with position := p }
  | .CassUdtIterator it, p => .CassUdtIterator { it with position := p }
  | .CassSchemaMetaIterator it, p => .CassSchemaMetaIterator { it with position := p }
  | .CassKeyspaceMetaTableIterator it, p =>
      .CassKeyspaceMetaTableIterator { it with position := p }
  | .CassKeyspaceMetaUserTypeIterator it, p =>
      .CassKeyspaceMetaUserTypeIterator { it with position := p }
  | .CassKeyspaceMetaViewIterator it, p =>
      .CassKeyspaceMetaViewIterator { it with position := p }
  | .CassTableMetaIterator it, p => .CassTableMetaIterator { it with position := p }
  | .CassViewMetaIterator it, p => .CassViewMetaIterator { it with position := p }

/-- The bound against which `cass_iterator_next` compares the new position:
the row count (0 when the result has no row collection), the column count, or
the stored `count` field. -/
def CassIterator.count : CassIterator → Nat
  | .CassResultIterator it => (it.result.rows.map List.length).getD 0
  | .CassRowIterator it => it.row.columns.length
  | .CassCollectionIterator it => it.count
  | .CassMapIterator it => it.count
  | .CassUdtIterator it => it.count
  | .CassSchemaMetaIterator it => it.count
  | .CassKeyspaceMetaTableIterator it => it.count
  | .CassKeyspaceMetaUserTypeIterator it => it.count
  | .CassKeyspaceMetaViewIterator it => it.count
  | .CassTableMetaIterator it => it.count
  | .CassViewMetaIterator it => it.count

/-- Iterated advancing: `advanceN it n` is the iterator state after `n` calls
to `cass_iterator_next`. -/
def advanceN (it : CassIterator) : Nat → CassIterator
  | 0 => it
  | n + 1 => (cass_iterator_next (advanceN it n)).1

lemma cass_iterator_next_eq (it : CassIterator) :
    cass_iterator_next it =
      (it.withPosition (some (it.position.elim 0 (· + 1))),
        decide (it.position.elim 0 (· + 1) < it.count)) := by
  cases it with
  | CassResultIterator i =>
      cases h : i.result.rows <;>
        simp [cass_iterator_next, CassIterator.withPosition, CassIterator.position,
          CassIterator.count, h]
  | CassRowIterator i =>
      simp [cass_iterator_next, CassIterator.withPosition, CassIterator.position,
        CassIterator.count]
  | CassCollectionIterator i =>
      simp [cass_iterator_next, CassIterator.withPosition, CassIterator.position,
        CassIterator.count]
  | CassMapIterator i =>
      simp [cass_iterator_next, CassIterator.withPosition, CassIterator.position,
        CassIterator.count]
  | CassUdtIterator i =>
      simp [cass_iterator_next, CassIterator.withPosition, CassIterator.position,
        CassIterator.count]
  | CassSchemaMetaIterator i =>
      simp [cass_iterator_next, CassIterator.withPosition, CassIterator.position,
        CassIterator.count]
  | CassKeyspaceMetaTableIterator i =>
      simp [cass_iterator_next, CassIterator.withPosition, CassIterator.position,
        CassIterator.count]
  | CassKeyspaceMetaUserTypeIterator i =>
      simp [cass_iterator_next, CassIterator.withPosition, CassIterator.position,
        CassIterator.count]
  | CassKeyspaceMetaViewIterator i =>
      simp [cass_iterator_next, CassIterator.withPosition, CassIterator.position,
        CassIterator.count]
  | CassTableMetaIterator i =>
      simp [cass_iterator_next, CassIterator.withPosition, CassIterator.position,
        CassIterator.count]
  | CassViewMetaIterator i =>
      simp [cass_iterator_next, CassIterator.withPosition, CassIterator.position,
        CassIterator.count]

lemma CassIterator.position_withPosition (it : CassIterator) (p : Option Nat) :
    (it.withPosition p).position = p := by
  cases it <;> rfl

lemma CassIterator.withPosition_withPosition (it : CassIterator) (p q : Option Nat) :
    (it.withPosition p).withPosition q = it.withPosition q := by
  cases it <;> rfl

lemma CassIterator.count_withPosition (it : CassIterator) (p : Option Nat) :
    (it.withPosition p).count = it.count := by
  cases it <;> rfl

lemma advanceN_succ_eq_withPosition (it : CassIterator) (h : it.position = none) :
    ∀ k, advanceN it (k + 1) = it.withPosition (some k) := by
  intro k
  induction k with
  | zero => simp [advanceN, cass_iterator_next_eq, h]
  | succ k ih =>
      show (cass_iterator_next (advanceN it (k + 1))).1 = _
      rw [ih, cass_iterator_next_eq, CassIterator.position_withPosition,
        CassIterator.withPosition_withPosition]
      rfl

lemma cass_iterator_next_advanceN (it : CassIterator) (h : it.position = none) (k : Nat) :
    (cass_iterator_next (advanceN it k)).2 = decide (k < it.count) := by
  cases k with
  | zero => simp [advanceN, cass_iterator_next_eq, h]
  | succ k =>
      rw [advanceN_succ_eq_withPosition it h k, cass_iterator_next_eq,
        CassIterator.position_withPosition, CassIterator.count_withPosition]
      rfl

/-- `cass_iterator_from_result` (query_result.rs, lines 604-616): the freshly
constructed iterator has no position yet. -/
def cass_iterator_from_result (result : CassResult) : CassIterator :=
  .CassResultIterator { result := result, position := none }

/-- `cass_iterator_from_row` (query_result.rs, lines 618-630). -/
def cass_iterator_from_row (row : CassRow) : CassIterator :=
  .CassRowIterator { row := row, position := none }

/-- C2: starting from a fresh iterator (position absent), the call with
zero-based index `k` returns `true` exactly for `k < count` (placing the
cursor at position `k`), and every call at index `count` or later returns
`false`; with `count = 0` already the first call returns `false`.  The
function is total, so no call faults. -/
theorem cass_iterator_next_round_trip (it : CassIterator) (h : it.position = none) :
    (∀ k, k < it.count →
        (cass_iterator_next (advanceN it k)).2 = true ∧
        (advanceN it (k + 1)).position = some k) ∧
    (∀ j, it.count ≤ j → (cass_iterator_next (advanceN it j)).2 = false) ∧
    (it.count = 0 → (cass_iterator_next it).2 = false) := by
  refine ⟨fun k hk => ⟨?_, ?_⟩, fun j hj => ?_, fun h0 => ?_⟩
  · rw [cass_iterator_next_advanceN it h k]
    simpa using hk
  · rw [advanceN_succ_eq_withPosition it h k, CassIterator.position_withPosition]
  · rw [cass_iterator_next_advanceN it h j]
    simpa using Nat.not_lt.mpr hj
  · have := cass_iterator_next_advanceN it h 0
    rw [show advanceN it 0 = it from rfl] at this
    rw [this]
    simp [h0]

/-- An empty result metadata record, for concrete test inputs. -/
def sampleMetadata : CassResultData :=
  { paging_state := none, col_specs := [], tracing_id := none }

/-- A concrete regular value. -/
def sampleValueA : CassValue := .mk (some (.RegularValue ⟨1⟩)) ⟨0⟩

/-- A concrete null-payload value. -/
def sampleValueB : CassValue := .mk none ⟨0⟩

/-- A concrete two-column row. -/
def sampleRow : CassRow :=
  { columns := [sampleValueA, sampleValueB], result_metadata := sampleMetadata }

theorem cass_iterator_next_round_trip_witness :
    (cass_iterator_from_row sampleRow).position = none ∧
    (cass_iterator_next (cass_iterator_from_row sampleRow)).2 = true ∧
    (advanceN (cass_iterator_from_row sampleRow) 2).position = some 1 ∧
    (cass_iterator_next (advanceN (cass_iterator_from_row sampleRow) 2)).2 = false ∧
    (cass_iterator_next (advanceN (cass_iterator_from_row sampleRow) 3)).2 = false := by
  have h := cass_iterator_next_round_trip (cass_iterator_from_row sampleRow) rfl
  exact ⟨rfl, (h.1 0 (by decide)).1, (h.1 1 (by decide)).2,
    h.2.1 2 (by decide), h.2.1 3 (by decide)⟩

/-! ## C3: accessors on mismatched variants / degenerate positions -/

/-- The variant tag of an iterator. -/
inductive IterKind where
  | resultRows
  | rowColumns
  | collectionItems
  | mapEntries
  | udtFields
  | schemaKeyspaces
  | keyspaceTables
  | keyspaceUserTypes
  | keyspaceViews
  | tableMetaChildren
  | viewMetaColumns
deriving Repr, DecidableEq

/-- The variant tag of a `CassIterator`. -/
def CassIterator.kind : CassIterator → IterKind
  | .CassResultIterator _ => .resultRows
  | .CassRowIterator _ => .rowColumns
  | .CassCollectionIterator _ => .collectionItems
  | .CassMapIterator _ => .mapEntries
  | .CassUdtIterator _ => .udtFields
  | .CassSchemaMetaIterator _ => .schemaKeyspaces
  | .CassKeyspaceMetaTableIterator _ => .keyspaceTables
  | .CassKeyspaceMetaUserTypeIterator _ => .keyspaceUserTypes
  | .CassKeyspaceMetaViewIterator _ => .keyspaceViews
  | .CassTableMetaIterator _ => .tableMetaChildren
  | .CassViewMetaIterator _ => .viewMetaColumns

/-- Size of the collection indexed by `cass_iterator_get_row`. -/
def rowTargetCount : CassIterator → Nat
  | .CassResultIterator it => (it.result.rows.map List.length).getD 0
  | _ => 0

/-- Size of the collection indexed by `cass_iterator_get_column`. -/
def columnTargetCount : CassIterator → Nat
  | .CassRowIterator it => it.row.columns.length
  | _ => 0

/-- Size of the collection indexed by `cass_iterator_get_value`. -/
def valueTargetCount : CassIterator → Nat
  | .CassCollectionIterator it =>
      match it.value.value with
      | some (.CollectionValue (.List l)) => l.length
      | some (.CollectionValue (.Set s)) => s.length
      | some (.CollectionValue (.Tuple t)) => t.length
      | _ => 0
  | _ => 0

/-- Size of the collection indexed by the map-entry accessors. -/
def mapTargetCount : CassIterator → Nat
  | .CassMapIterator it =>
      match it.value.value with
      | some (.CollectionValue (.Map m)) => m.length
      | _ => 0
  | _ => 0

/-- Size of the collection indexed by `cass_iterator_get_user_type_field_value`. -/
def udtTargetCount : CassIterator → Nat
  | .CassUdtIterator it =>
      match it.value.value with
      | some (.CollectionValue (.UserDefinedType _ _ fields)) => fields.length
      | _ => 0
  | _ => 0

/-- Size of the collection indexed by `cass_iterator_get_keyspace_meta`. -/
def keyspaceMetaTargetCount : CassIterator → Nat
  | .CassSchemaMetaIterator it => it.value.keyspaces.length
  | _ => 0

/-- Size of the collection indexed by `cass_iterator_get_table_meta`. -/
def tableMetaTargetCount : CassIterator → Nat
  | .CassKeyspaceMetaTableIterator it => it.value.tables.length
  | _ => 0

/-- Size of the collection indexed by `cass_iterator_get_user_type`. -/
def userTypeTargetCount : CassIterator → Nat
  | .CassKeyspaceMetaUserTypeIterator it => it.value.user_defined_type_data_type.length
  | _ => 0

/-- Size of the collection indexed by `cass_iterator_get_column_meta`. -/
def columnMetaTargetCount : CassIterator → Nat
  | .CassTableMetaIterator it => it.value.columns_metadata.length
  | .CassViewMetaIterator it => it.value.view_metadata.columns_metadata.length
  | _ => 0

/-- Size of the collection indexed by `cass_iterator_get_materialized_view_meta`. -/
def viewMetaTargetCount : CassIterator → Nat
  | .CassKeyspaceMetaViewIterator it => it.value.views.length
  | .CassTableMetaIterator it => it.value.views.length
  | _ => 0

lemma get_row_degenerate (it : CassIterator) :
    (it.kind ≠ .resultRows → cass_iterator_get_row it = none) ∧
    (it.position = none → cass_iterator_get_row it = none) ∧
    (∀ p, it.position = some p → rowTargetCount it ≤ p →
      cass_iterator_get_row it = none) := by
  refine ⟨fun hk => ?_, fun hp => ?_, fun p hp hlen => ?_⟩
  · cases it <;> first
      | exact absurd rfl hk
      | rfl
  · cases it <;> simp_all [cass_iterator_get_row, CassIterator.position]
  · cases it <;>
      simp_all [cass_iterator_get_row, CassIterator.position, rowTargetCount]
    rename_i i
    cases hrows : i.result.rows with
    | none => simp
    | some rs =>
        simp [hrows] at hlen ⊢
        exact hlen

lemma get_column_degenerate (it : CassIterator) :
    (it.kind ≠ .rowColumns → cass_iterator_get_column it = none) ∧
    (it.position = none → cass_iterator_get_column it = none) ∧
    (∀ p, it.position = some p → columnTargetCount it ≤ p →
      cass_iterator_get_column it = none) := by
  refine ⟨fun hk => ?_, fun hp => ?_, fun p hp hlen => ?_⟩
  · cases it <;> first
      | exact absurd rfl hk
      | rfl
  · cases it <;> simp_all [cass_iterator_get_column, CassIterator.position]
  · cases it <;>
      simp_all [cass_iterator_get_column, CassIterator.position, columnTargetCount]

lemma get_value_degenerate (it : CassIterator) :
    (it.kind ≠ .collectionItems → cass_iterator_get_value it = none) ∧
    (it.position = none → cass_iterator_get_value it = none) ∧
    (∀ p, it.position = some p → valueTargetCount it ≤ p →
      cass_iterator_get_value it = none) := by
  refine ⟨fun hk => ?_, fun hp => ?_, fun p hp hlen => ?_⟩
  · cases it <;> first
      | exact absurd rfl hk
      | rfl
  · cases it <;> simp_all [cass_iterator_get_value, CassIterator.position]
  · cases it <;>
      simp_all [cass_iterator_get_value, CassIterator.position, valueTargetCount]
    rename_i i
    cases hv : i.value.value with
    | none => simp
    | some v =>
        cases v with
        | RegularValue c => simp
        | CollectionValue col =>
            cases col <;> simp_all [List.get?_eq_none.mpr]
            all_goals simp [List.getElem?_eq_none hlen]

lemma get_map_key_degenerate (it : CassIterator) :
    (it.kind ≠ .mapEntries → cass_iterator_get_map_key it = none) ∧
    (it.position = none → cass_iterator_get_map_key it = none) ∧
    (∀ p, it.position = some p → mapTargetCount it ≤ p →
      cass_iterator_get_map_key it = none) := by
  refine ⟨fun hk => ?_, fun hp => ?_, fun p hp hlen => ?_⟩
  · cases it <;> first
      | exact absurd rfl hk
      | rfl
  · cases it <;> simp_all [cass_iterator_get_map_key, CassIterator.position]
  · cases it <;>
      simp_all [cass_iterator_get_map_key, CassIterator.position, mapTargetCount]
    rename_i i
    cases hv : i.value.value with
    | none => simp
    | some v =>
        cases v with
        | RegularValue c => simp
        | CollectionValue col =>
            cases col <;> simp_all [List.get?_eq_none.mpr]

lemma get_map_value_degenerate (it : CassIterator) :
    (it.kind ≠ .mapEntries → cass_iterator_get_map_value it = none) ∧
    (it.position = none → cass_iterator_get_map_value it = none) ∧
    (∀ p, it.position = some p → mapTargetCount it ≤ p →
      cass_iterator_get_map_value it = none) := by
  refine ⟨fun hk => ?_, fun hp => ?_, fun p hp hlen => ?_⟩
  · cases it <;> first
      | exact absurd rfl hk
      | rfl
  · cases it <;> simp_all [cass_iterator_get_map_value, CassIterator.position]
  · cases it <;>
      simp_all [cass_iterator_get_map_value, CassIterator.position, mapTargetCount]
    rename_i i
    cases hv : i.value.value with
    | none => simp
    | some v =>
        cases v with
        | RegularValue c => simp
        | CollectionValue col =>
            cases col <;> simp_all [List.get?_eq_none.mpr]

lemma get_user_type_field_value_degenerate (it : CassIterator) :
    (it.kind ≠ .udtFields → cass_iterator_get_user_type_field_value it = none) ∧
    (it.position = none → cass_iterator_get_user_type_field_value it = none) ∧
    (∀ p, it.position = some p → udtTargetCount it ≤ p →
      cass_iterator_get_user_type_field_value it = none) := by
  refine ⟨fun hk => ?_, fun hp => ?_, fun p hp hlen => ?_⟩
  · cases it <;> first
      | exact absurd rfl hk
      | rfl
  · cases it <;>
      simp_all [cass_iterator_get_user_type_field_value, CassIterator.position]
  · cases it <;>
      simp_all [cass_iterator_get_user_type_field_value, CassIterator.position,
        udtTargetCount]
    rename_i i
    cases hv : i.value.value with
    | none => simp
    | some v =>
        cases v with
        | RegularValue c => simp
        | CollectionValue col =>
            cases col <;> simp_all [List.get?_eq_none.mpr]
            all_goals simp [List.getElem?_eq_none hlen]

lemma get_keyspace_meta_degenerate (it : CassIterator) :
    (it.kind ≠ .schemaKeyspaces → cass_iterator_get_keyspace_meta it = none) ∧
    (it.position = none → cass_iterator_get_keyspace_meta it = none) ∧
    (∀ p, it.position = some p → keyspaceMetaTargetCount it ≤ p →
      cass_iterator_get_keyspace_meta it = none) := by
  refine ⟨fun hk => ?_, fun hp => ?_, fun p hp hlen => ?_⟩
  · cases it <;> first
      | exact absurd rfl hk
      | rfl
  · cases it <;> simp_all [cass_iterator_get_keyspace_meta, CassIterator.position]
  · cases it <;>
      simp_all [cass_iterator_get_keyspace_meta, CassIterator.position,
        keyspaceMetaTargetCount]

lemma get_table_meta_degenerate (it : CassIterator) :
    (it.kind ≠ .keyspaceTables → cass_iterator_get_table_meta it = none) ∧
    (it.position = none → cass_iterator_get_table_meta it = none) ∧
    (∀ p, it.position = some p → tableMetaTargetCount it ≤ p →
      cass_iterator_get_table_meta it = none) := by
  refine ⟨fun hk => ?_, fun hp => ?_, fun p hp hlen => ?_⟩
  · cases it <;> first
      | exact absurd rfl hk
      | rfl
  · cases it <;> simp_all [cass_iterator_get_table_meta, CassIterator.position]
  · cases it <;>
      simp_all [cass_iterator_get_table_meta, CassIterator.position,
        tableMetaTargetCount]

lemma get_user_type_degenerate (it : CassIterator) :
    (it.kind ≠ .keyspaceUserTypes → cass_iterator_get_user_type it = none) ∧
    (it.position = none → cass_iterator_get_user_type it = none) ∧
    (∀ p, it.position = some p → userTypeTargetCount it ≤ p →
      cass_iterator_get_user_type it = none) := by
  refine ⟨fun hk => ?_, fun hp => ?_, fun p hp hlen => ?_⟩
  · cases it <;> first
      | exact absurd rfl hk
      | rfl
  · cases it <;> simp_all [cass_iterator_get_user_type, CassIterator.position]
  · cases it <;>
      simp_all [cass_iterator_get_user_type, CassIterator.position,
        userTypeTargetCount]

lemma get_column_meta_degenerate (it : CassIterator) :
    (it.kind ≠ .tableMetaChildren → it.kind ≠ .viewMetaColumns →
      cass_iterator_get_column_meta it = none) ∧
    (it.position = none → cass_iterator_get_column_meta it = none) ∧
    (∀ p, it.position = some p → columnMetaTargetCount it ≤ p →
      cass_iterator_get_column_meta it = none) := by
  refine ⟨fun hk hk2 => ?_, fun hp => ?_, fun p hp hlen => ?_⟩
  · cases it <;> first
      | exact absurd rfl hk
      | exact absurd rfl hk2
      | rfl
  · cases it <;> simp_all [cass_iterator_get_column_meta, CassIterator.position]
  · cases it <;>
      simp_all [cass_iterator_get_column_meta, CassIterator.position,
        columnMetaTargetCount]

lemma get_materialized_view_meta_degenerate (it : CassIterator) :
    (it.kind ≠ .keyspaceViews → it.kind ≠ .tableMetaChildren →
      cass_iterator_get_materialized_view_meta it = none) ∧
    (it.position = none → cass_iterator_get_materialized_view_meta it = none) ∧
    (∀ p, it.position = some p → viewMetaTargetCount it ≤ p →
      cass_iterator_get_materialized_view_meta it = none) := by
  refine ⟨fun hk hk2 => ?_, fun hp => ?_, fun p hp hlen => ?_⟩
  · cases it <;> first
      | exact absurd rfl hk
      | exact absurd rfl hk2
      | rfl
  · cases it <;>
      simp_all [cass_iterator_get_materialized_view_meta, CassIterator.position]
  · cases it <;>
      simp_all [cass_iterator_get_materialized_view_meta, CassIterator.position,
        viewMetaTargetCount]

/-- C3: every pointer-returning accessor of `CassIterator` returns the null
sentinel when the iterator variant does not match the accessor, when the
iterator has not been advanced yet (position absent), or when the position is
at or past the end of the collection the accessor indexes. -/
theorem iterator_accessors_null_on_degenerate (it : CassIterator) :
    ((it.kind ≠ .resultRows → cass_iterator_get_row it = none) ∧
      (it.position = none → cass_iterator_get_row it = none) ∧
      (∀ p, it.position = some p → rowTargetCount it ≤ p →
        cass_iterator_get_row it = none)) ∧
    ((it.kind ≠ .rowColumns → cass_iterator_get_column it = none) ∧
      (it.position = none → cass_iterator_get_column it = none) ∧
      (∀ p, it.position = some p → columnTargetCount it ≤ p →
        cass_iterator_get_column it = none)) ∧
    ((it.kind ≠ .collectionItems → cass_iterator_get_value it = none) ∧
      (it.position = none → cass_iterator_get_value it = none) ∧
      (∀ p, it.position = some p → valueTargetCount it ≤ p →
        cass_iterator_get_value it = none)) ∧
    ((it.kind ≠ .mapEntries → cass_iterator_get_map_key it = none) ∧
      (it.position = none → cass_iterator_get_map_key it = none) ∧
      (∀ p, it.position = some p → mapTargetCount it ≤ p →
        cass_iterator_get_map_key it = none)) ∧
    ((it.kind ≠ .mapEntries → cass_iterator_get_map_value it = none) ∧
      (it.position = none → cass_iterator_get_map_value it = none) ∧
      (∀ p, it.position = some p → mapTargetCount it ≤ p →
        cass_iterator_get_map_value it = none)) ∧
    ((it.kind ≠ .udtFields → cass_iterator_get_user_type_field_value it = none) ∧
      (it.position = none → cass_iterator_get_user_type_field_value it = none) ∧
      (∀ p, it.position = some p → udtTargetCount it ≤ p →
        cass_iterator_get_user_type_field_value it = none)) ∧
    ((it.kind ≠ .schemaKeyspaces → cass_iterator_get_keyspace_meta it = none) ∧
      (it.position = none → cass_iterator_get_keyspace_meta it = none) ∧
      (∀ p, it.position = some p → keyspaceMetaTargetCount it ≤ p →
        cass_iterator_get_keyspace_meta it = none)) ∧
    ((it.kind ≠ .keyspaceTables → cass_iterator_get_table_meta it = none) ∧
      (it.position = none → cass_iterator_get_table_meta it = none) ∧
      (∀ p, it.position = some p → tableMetaTargetCount it ≤ p →
        cass_iterator_get_table_meta it = none)) ∧
    ((it.kind ≠ .keyspaceUserTypes → cass_iterator_get_user_type it = none) ∧
      (it.position = none → cass_iterator_get_user_type it = none) ∧
      (∀ p, it.position = some p → userTypeTargetCount it ≤ p →
        cass_iterator_get_user_type it = none)) ∧
    ((it.kind ≠ .tableMetaChildren → it.kind ≠ .viewMetaColumns →
        cass_iterator_get_column_meta it = none) ∧
      (it.position = none → cass_iterator_get_column_meta it = none) ∧
      (∀ p, it.position = some p → columnMetaTargetCount it ≤ p →
        cass_iterator_get_column_meta it = none)) ∧
    ((it.kind ≠ .keyspaceViews → it.kind ≠ .tableMetaChildren →
        cass_iterator_get_materialized_view_meta it = none) ∧
      (it.position = none → cass_iterator_get_materialized_view_meta it = none) ∧
      (∀ p, it.position = some p → viewMetaTargetCount it ≤ p →
        cass_iterator_get_materialized_view_meta it = none)) :=
  ⟨get_row_degenerate it, get_column_degenerate it, get_value_degenerate it,
    get_map_key_degenerate it, get_map_value_degenerate it,
    get_user_type_field_value_degenerate it, get_keyspace_meta_degenerate it,
    get_table_meta_degenerate it, get_user_type_degenerate it,
    get_column_meta_degenerate it, get_materialized_view_meta_degenerate it⟩

/-- A freshly constructed (never advanced) collection iterator over a two
element list value, used as a concrete input. -/
def sampleFreshCollectionIterator : CassIterator :=
  .CassCollectionIterator
    { value := .mk (some (.CollectionValue (.List [sampleValueA, sampleValueB]))) ⟨0⟩,
      count := 2,
      position := none }

theorem iterator_accessors_null_on_degenerate_witness :
    sampleFreshCollectionIterator.position = none ∧
    cass_iterator_get_row sampleFreshCollectionIterator = none ∧
    cass_iterator_get_column sampleFreshCollectionIterator = none ∧
    cass_iterator_get_value sampleFreshCollectionIterator = none ∧
    cass_iterator_get_map_key sampleFreshCollectionIterator = none ∧
    cass_iterator_get_map_value sampleFreshCollectionIterator = none ∧
    cass_iterator_get_user_type_field_value sampleFreshCollectionIterator = none ∧
    cass_iterator_get_keyspace_meta sampleFreshCollectionIterator = none ∧
    cass_iterator_get_table_meta sampleFreshCollectionIterator = none ∧
    cass_iterator_get_user_type sampleFreshCollectionIterator = none ∧
    cass_iterator_get_column_meta sampleFreshCollectionIterator = none ∧
    cass_iterator_get_materialized_view_meta sampleFreshCollectionIterator = none := by
  have h := iterator_accessors_null_on_degenerate sampleFreshCollectionIterator
  exact ⟨rfl, h.1.2.1 rfl, h.2.1.2.1 rfl, h.2.2.1.2.1 rfl, h.2.2.2.1.2.1 rfl,
    h.2.2.2.2.1.2.1 rfl, h.2.2.2.2.2.1.2.1 rfl, h.2.2.2.2.2.2.1.2.1 rfl,
    h.2.2.2.2.2.2.2.1.2.1 rfl, h.2.2.2.2.2.2.2.2.1.2.1 rfl,
    h.2.2.2.2.2.2.2.2.2.1.2.1 rfl, h.2.2.2.2.2.2.2.2.2.2.2.1 rfl⟩

/-- C1 (code-bug evidence): `cass_result_first_row` never returns the null
sentinel on a result without rows — it panics both when the row collection is
absent (`rows == None`, because the second `||` operand unwraps `None`) and
when it is empty (`first().unwrap()` on an empty `Vec`), while
`cass_row_get_column` does return the null sentinel for every out-of-range
index, here evaluated at indices 2 and 7 of a two-column row. -/
theorem cass_result_first_row_faults_on_absent_or_empty_rows :
    cass_result_first_row { rows := none, metadata := sampleMetadata } = .error () ∧
    cass_result_first_row { rows := some [], metadata := sampleMetadata } = .error () ∧
    cass_result_first_row { rows := some [sampleRow], metadata := sampleMetadata } =
      .ok (some sampleRow) ∧
    cass_row_get_column sampleRow 2 = none ∧
    cass_row_get_column sampleRow 7 = none :=
  ⟨rfl, rfl, rfl, rfl, rfl⟩

/-- A base table used as the strong owner of a view back-reference. -/
def sampleBaseTable : CassTableMeta := .mk "base_table" [] [] [] []

/-- A materialized-view meta whose strong owner is already destroyed. -/
def sampleDeadView : CassMaterializedViewMeta :=
  .mk "mv" (.mk "mv" [] [] [] []) .dead

/-- A materialized-view meta whose strong owner is still alive. -/
def sampleAliveView : CassMaterializedViewMeta :=
  .mk "mv" (.mk "mv" [] [] [] []) (.alive sampleBaseTable)

/-- C7 (counterexample): resolving the base-table back-reference of a view
whose strong owner has been destroyed does not produce the absent result
(`Except.ok none`) — the accessor unwraps the failed upgrade and panics. -/
theorem cass_materialized_view_meta_base_table_counterexample :
    cass_materialized_view_meta_base_table sampleDeadView = .error () ∧
    cass_materialized_view_meta_base_table sampleDeadView ≠ .ok none :=
  ⟨rfl, fun h => Except.noConfusion h⟩

/-- C7 (amended): `cass_materialized_view_meta_base_table` resolves the weak
back-reference with the checked `Weak::upgrade`; when the owner is alive it
returns the base table, but when the owner has been destroyed it unwraps the
absent upgrade result and panics instead of returning the null sentinel. -/
theorem cass_materialized_view_meta_base_table_spec (v : CassMaterializedViewMeta) :
    (v.base_table = .dead → cass_materialized_view_meta_base_table v = .error ()) ∧
    (∀ t, v.base_table = .alive t →
      cass_materialized_view_meta_base_table v = .ok (some t)) := by
  constructor
  · intro h
    simp [cass_materialized_view_meta_base_table, h, WeakRef.upgrade]
  · intro t h
    simp [cass_materialized_view_meta_base_table, h, WeakRef.upgrade]

theorem cass_materialized_view_meta_base_table_spec_witness :
    sampleDeadView.base_table = .dead ∧
    cass_materialized_view_meta_base_table sampleDeadView = .error () ∧
    sampleAliveView.base_table = .alive sampleBaseTable ∧
    cass_materialized_view_meta_base_table sampleAliveView = .ok (some sampleBaseTable) :=
  ⟨rfl, (cass_materialized_view_meta_base_table_spec sampleDeadView).1 rfl, rfl,
    (cass_materialized_view_meta_base_table_spec sampleAliveView).2 sampleBaseTable rfl⟩

/-! ## C10: `str_to_arr` (argconv.rs) -/

/-- `str::is_char_boundary` of Rust: index 0 is always a boundary, the length
is a boundary, and an interior index is a boundary iff the byte there is not a
UTF-8 continuation byte (`(b as i8) >= -0x40`, i.e. `b < 0x80 || b >= 0xC0`). -/
def isCharBoundary (s : List Nat) (i : Nat) : Bool :=
  if i = 0 then true
  else
    match s.get? i with
    | none => decide (i = s.length)
    | some b => decide (b < 128 ∨ 192 ≤ b)

/-- The `while !s.is_char_boundary(max_len) { max_len -= 1 }` loop of
`str_to_arr`: decrement until a character boundary is reached (index 0 is
always one, so the loop terminates). -/
def findBoundary (s : List Nat) : Nat → Nat
  | 0 => 0
  | m + 1 => if isCharBoundary s (m + 1) then m + 1 else findBoundary s m

/-- `str_to_arr` (argconv.rs, lines 23-38) for an array size `N` and a string
with byte content `s`: start from the all-NUL array of length `N`, cap the
copy length at `min (N - 1) s.length`, back it off to a character boundary,
and copy that prefix of `s` into the front. -/
def str_to_arr (N : Nat) (s : List Nat) : List Nat :=
  let max_len := findBoundary s (min (N - 1) s.length)
  s.take max_len ++ List.replicate (N - max_len) 0

lemma findBoundary_le (s : List Nat) : ∀ m, findBoundary s m ≤ m := by
  intro m
  induction m with
  | zero => exact Nat.le_refl 0
  | succ m ih =>
      unfold findBoundary
      split
      · exact Nat.le_refl _
      · exact Nat.le_trans ih (Nat.le_succ m)

lemma findBoundary_isBoundary (s : List Nat) :
    ∀ m, isCharBoundary s (findBoundary s m) = true := by
  intro m
  induction m with
  | zero => simp [findBoundary, isCharBoundary]
  | succ m ih =>
      unfold findBoundary
      split
      · assumption
      · exact ih

/-- C10: for `N ≥ 1`, `str_to_arr` yields an array of length `N` whose last
element is NUL, whose first `k ≤ N - 1` elements are the bytes of a prefix of
`s` ending on a UTF-8 character boundary, and whose remaining elements are all
NUL. -/
theorem str_to_arr_spec (N : Nat) (s : List Nat) (hN : 1 ≤ N) :
    (str_to_arr N s).length = N ∧
    (str_to_arr N s).get? (N - 1) = some 0 ∧
    findBoundary s (min (N - 1) s.length) ≤ N - 1 ∧
    isCharBoundary s (findBoundary s (min (N - 1) s.length)) = true ∧
    (str_to_arr N s).take (findBoundary s (min (N - 1) s.length)) =
      s.take (findBoundary s (min (N - 1) s.length)) ∧
    (∀ i, findBoundary s (min (N - 1) s.length) ≤ i → i < N →
      (str_to_arr N s).get? i = some 0) := by
  have hk_min : findBoundary s (min (N - 1) s.length) ≤ min (N - 1) s.length :=
    findBoundary_le s _
  set k := findBoundary s (min (N - 1) s.length) with hk
  have hkN : k ≤ N - 1 := Nat.le_trans hk_min (Nat.min_le_left _ _)
  have hks : k ≤ s.length := Nat.le_trans hk_min (Nat.min_le_right _ _)
  have htake : (s.take k).length = k := List.length_take_of_le hks
  have hlen : (str_to_arr N s).length = N := by
    rw [str_to_arr]
    simp only [List.length_append, List.length_replicate, ← hk, htake]
    omega
  have hrepl : ∀ i, k ≤ i → i < N → (str_to_arr N s).get? i = some 0 := by
    intro i hki hiN
    rw [str_to_arr]
    rw [List.get?_append_right (by simpa [htake, ← hk] using hki)]
    simp only [← hk, htake]
    rw [List.get?_eq_get (by simp [List.length_replicate]; omega)]
    simp [List.get_replicate]
  refine ⟨hlen, ?_, hkN, findBoundary_isBoundary s _, ?_, hrepl⟩
  · exact hrepl (N - 1) hkN (by omega)
  · rw [str_to_arr]
    simp only [← hk]
    rw [List.take_append_of_le_length (by simp [htake])]
    simp [htake]

/-- An explicit byte string: "ab" followed by a two-byte UTF-8 character
(0xC3 0xA9, é). -/
def sampleUtf8 : List Nat := [97, 98, 195, 169]

theorem str_to_arr_spec_witness :
    (1 ≤ 4) ∧
    (str_to_arr 4 sampleUtf8).length = 4 ∧
    (str_to_arr 4 sampleUtf8).get? 3 = some 0 ∧
    isCharBoundary sampleUtf8 (findBoundary sampleUtf8 (min 3 sampleUtf8.length)) = true := by
  have h := str_to_arr_spec 4 sampleUtf8 (by decide)
  exact ⟨by decide, h.1, h.2.1, h.2.2.2.1⟩

/-! ## Batch handles and copy-on-write inner state (batch.rs)

The claims about `CassBatch` are about allocation identity of the
`Arc<CassBatchState>` block, so here the `Arc` is made explicit: a heap is a
list of reference-counted blocks, a handle stores a block id, and
`Arc::make_mut` either mutates in place (strong count 1) or clones into a
fresh block. -/

/-- `CassError` (cass_error.rs is not under src/): the status codes returned
by the functions verified here. -/
inductive CassError where
  | CASS_OK
  | CASS_ERROR_LIB_BAD_PARAMS
  | CASS_ERROR_LIB_EXECUTION_PROFILE_INVALID
  | CASS_ERROR_LIB_NO_HOSTS_AVAILABLE
  | CASS_ERROR_LIB_UNABLE_TO_CONNECT
  | CASS_ERROR_SERVER_WRITE_FAILURE
deriving Repr, DecidableEq

/-- `scylla::batch::Batch` (external driver): the fields written by the
batch setters of batch.rs, with statements as opaque payloads. -/
structure Batch where
  batch_type : Nat
  statements : List Nat
  consistency : Option Nat
  serial_consistency : Option Nat
  timestamp : Option Int
  is_idempotent : Bool
  tracing : Bool
deriving Repr, DecidableEq

/-- `Batch::new` of the external driver: an empty batch of the given type. -/
def Batch.new (batch_type : Nat) : Batch :=
  { batch_type := batch_type, statements := [], consistency := none,
    serial_consistency := none, timestamp := none, is_idempotent := false,
    tracing := false }

/-- `CassBatchState` (batch.rs): the copy-on-write inner state. -/
structure CassBatchState where
  batch : Batch
  bound_values : List (List Nat)
deriving Repr, DecidableEq

/-- `Statement` held by a `CassStatement` (statement.rs is not under src/;
batch.rs only distinguishes simple from prepared, cloning the payload). -/
inductive Statement where
  | Simple : Nat → Statement
  | Prepared : Nat → Statement
deriving Repr, DecidableEq

/-- `CassStatement` (statement.rs is not under src/): the two fields that
`cass_batch_add_statement` reads. -/
structure CassStatement where
  statement : Statement
  bound_values : List Nat
deriving Repr, DecidableEq

/-- One heap block holding a `CassBatchState` behind an `Arc`. -/
structure ArcBlock where
  value : CassBatchState
  strong : Nat
deriving Repr, DecidableEq

/-- The explicit heap of `Arc<CassBatchState>` blocks; a block id is an index,
allocation appends. -/
abbrev BatchHeap := List ArcBlock

/-- The value stored in block `r`. -/
def heapValue (h : BatchHeap) (r : Nat) : Option CassBatchState :=
  (h.get? r).map ArcBlock.value

/-- The strong reference count of block `r` (0 for an invalid id). -/
def heapStrong (h : BatchHeap) (r : Nat) : Nat :=
  ((h.get? r).map ArcBlock.strong).getD 0

/-- Replace the element at an index (no-op when out of range). -/
def listModify (f : α → α) : List α → Nat → List α
  | [], _ => []
  | a :: as, 0 => f a :: as
  | a :: as, n + 1 => a :: listModify f as n

/-- `Arc::new`: allocate a fresh block with strong count 1. -/
def arcAlloc (h : BatchHeap) (v : CassBatchState) : BatchHeap × Nat :=
  (h ++ [{ value := v, strong := 1 }], h.length)

/-- `Arc::clone` (taking a state snapshot for execution): bump the strong
count of the block; the handle value is unchanged. -/
def arcClone (h : BatchHeap) (r : Nat) : BatchHeap :=
  listModify (fun b => { b with strong := b.strong + 1 }) h r

/-- `Arc::make_mut` composed with a mutation `f` of the pointee: with a unique
owner the block is mutated in place; with the block aliased, the old block
keeps its value (its strong count dropping by one) and the handle moves to a
freshly allocated block holding the mutated clone. -/
def arcMakeMut (h : BatchHeap) (r : Nat) (f : CassBatchState → CassBatchState) :
    BatchHeap × Nat :=
  if heapStrong h r = 1 then
    (listModify (fun b => { b with value := f b.value }) h r, r)
  else
    match heapValue h r with
    | some v =>
        arcAlloc (listModify (fun b => { b with strong := b.strong - 1 }) h r) (f v)
    | none => (h, r)

/-- `CassBatch` (batch.rs): the boxed handle; `state` is the id of its
`Arc<CassBatchState>` block. -/
structure CassBatch where
  state : Nat
  batch_request_timeout_ms : Option Nat
deriving Repr, DecidableEq

/-- Modelled from the spec: `make_batch_type` lives in cass_types.rs, which is
not under src/.  The three C batch types (LOGGED = 0, UNLOGGED = 1,
COUNTER = 2) convert; other values are rejected. -/
def make_batch_type (t : Nat) : Option Nat :=
  if t ≤ 2 then some t else none

/-- Modelled from the spec: the `CassConsistency -> Consistency` conversion
lives in cass_types.rs, which is not under src/.  The known C consistency
codes convert; other values are rejected, making the setter return
`CASS_ERROR_LIB_BAD_PARAMS`. -/
def cassConsistencyTryInto (c : Nat) : Option Nat :=
  if c ≤ 10 then some c else none

/-- `cass_batch_new` (batch.rs, lines 26-39): on a valid batch type, allocate
the inner state block (empty batch, empty bound values) and return the handle. -/
def cass_batch_new (h : BatchHeap) (t : Nat) : BatchHeap × Option CassBatch :=
  match make_batch_type t with
  | some batch_type =>
      let alloc := arcAlloc h { batch := Batch.new batch_type, bound_values := [] }
      (alloc.1, some { state := alloc.2, batch_request_timeout_ms := none })
  | none => (h, none)

/-- The pure effect of `cass_batch_set_consistency` on the inner state. -/
def stateSetConsistency (c : Nat) (s : CassBatchState) : CassBatchState :=
  { s with batch := { s.batch with consistency := some c } }

/-- The pure effect of `cass_batch_set_serial_consistency` on the inner state. -/
def stateSetSerialConsistency (c : Nat) (s : CassBatchState) : CassBatchState :=
  { s with batch := { s.batch with serial_consistency := some c } }

/-- The pure effect of `cass_batch_set_timestamp` on the inner state. -/
def stateSetTimestamp (t : Int) (s : CassBatchState) : CassBatchState :=
  { s with batch := { s.batch with timestamp := some t } }

/-- The pure effect of `cass_batch_set_is_idempotent` on the inner state. -/
def stateSetIsIdempotent (b : Bool) (s : CassBatchState) : CassBatchState :=
  { s with batch := { s.batch with is_idempotent := b } }

/-- The pure effect of `cass_batch_set_tracing` on the inner state. -/
def stateSetTracing (b : Bool) (s : CassBatchState) : CassBatchState :=
  { s with batch := { s.batch with tracing := b } }

/-- The pure effect of `cass_batch_add_statement` on the inner state: append
the statement payload to the batch and push the statement's bound values. -/
def stateAddStatement (stmt : CassStatement) (s : CassBatchState) : CassBatchState :=
  { s with
      batch := { s.batch with
        statements := s.batch.statements ++
          [match stmt.statement with
            | .Simple q => q
            | .Prepared p => p] },
      bound_values := s.bound_values ++ [stmt.bound_values] }

/-- `cass_batch_set_consistency` (batch.rs, lines 46-61): invalid consistency
returns `CASS_ERROR_LIB_BAD_PARAMS` without touching the state; otherwise the
inner state is updated through `Arc::make_mut`. -/
def cass_batch_set_consistency (h : BatchHeap) (b : CassBatch) (c : Nat) :
    BatchHeap × CassBatch × CassError :=
  match cassConsistencyTryInto c with
  | none => (h, b, .CASS_ERROR_LIB_BAD_PARAMS)
  | some c2 =>
      let m := arcMakeMut h b.state (stateSetConsistency c2)
      (m.1, { b with state := m.2 }, .CASS_OK)

/-- `cass_batch_set_serial_consistency` (batch.rs, lines 63-78). -/
def cass_batch_set_serial_consistency (h : BatchHeap) (b : CassBatch) (c : Nat) :
    BatchHeap × CassBatch × CassError :=
  match cassConsistencyTryInto c with
  | none => (h, b, .CASS_ERROR_LIB_BAD_PARAMS)
  | some c2 =>
      let m := arcMakeMut h b.state (stateSetSerialConsistency c2)
      (m.1, { b with state := m.2 }, .CASS_OK)

/-- `cass_batch_set_timestamp` (batch.rs, lines 80-92). -/
def cass_batch_set_timestamp (h : BatchHeap) (b : CassBatch) (t : Int) :
    BatchHeap × CassBatch × CassError :=
  let m := arcMakeMut h b.state (stateSetTimestamp t)
  (m.1, { b with state := m.2 }, .CASS_OK)

/-- `cass_batch_set_request_timeout` (batch.rs, lines 94-103): mutates only
the boxed handle, never the shared inner state. -/
def cass_batch_set_request_timeout (h : BatchHeap) (b : CassBatch) (timeout_ms : Nat) :
    BatchHeap × CassBatch × CassError :=
  (h, { b with batch_request_timeout_ms := some timeout_ms }, .CASS_OK)

/-- `cass_batch_set_is_idempotent` (batch.rs, lines 105-116). -/
def cass_batch_set_is_idempotent (h : BatchHeap) (b : CassBatch) (v : Bool) :
    BatchHeap × CassBatch × CassError :=
  let m := arcMakeMut h b.state (stateSetIsIdempotent v)
  (m.1, { b with state := m.2 }, .CASS_OK)

/-- `cass_batch_set_tracing` (batch.rs, lines 118-129). -/
def cass_batch_set_tracing (h : BatchHeap) (b : CassBatch) (v : Bool) :
    BatchHeap × CassBatch × CassError :=
  let m := arcMakeMut h b.state (stateSetTracing v)
  (m.1, { b with state := m.2 }, .CASS_OK)

/-- `cass_batch_add_statement` (batch.rs, lines 131-148). -/
def cass_batch_add_statement (h : BatchHeap) (b : CassBatch) (stmt : CassStatement) :
    BatchHeap × CassBatch × CassError :=
  let m := arcMakeMut h b.state (stateAddStatement stmt)
  (m.1, { b with state := m.2 }, .CASS_OK)

/-- The caller-side mutations of a `CassBatch` handle. -/
inductive BatchMutation where
  | setConsistency : Nat → BatchMutation
  | setSerialConsistency : Nat → BatchMutation
  | setTimestamp : Int → BatchMutation
  | setRequestTimeout : Nat → BatchMutation
  | setIsIdempotent : Bool → BatchMutation
  | setTracing : Bool → BatchMutation
  | addStatement : CassStatement → BatchMutation
deriving Repr, DecidableEq

/-- Apply one caller-side mutation through the corresponding API function. -/
def applyBatchMutation (h : BatchHeap) (b : CassBatch) : BatchMutation → BatchHeap × CassBatch
  | .setConsistency c => ((cass_batch_set_consistency h b c).1, (cass_batch_set_consistency h b c).2.1)
  | .setSerialConsistency c =>
      ((cass_batch_set_serial_consistency h b c).1, (cass_batch_set_serial_consistency h b c).2.1)
  | .setTimestamp t => ((cass_batch_set_timestamp h b t).1, (cass_batch_set_timestamp h b t).2.1)
  | .setRequestTimeout t =>
      ((cass_batch_set_request_timeout h b t).1, (cass_batch_set_request_timeout h b t).2.1)
  | .setIsIdempotent v =>
      ((cass_batch_set_is_idempotent h b v).1, (cass_batch_set_is_idempotent h b v).2.1)
  | .setTracing v => ((cass_batch_set_tracing h b v).1, (cass_batch_set_tracing h b v).2.1)
  | .addStatement stmt =>
      ((cass_batch_add_statement h b stmt).1, (cass_batch_add_statement h b stmt).2.1)

/-- Apply a sequence of caller-side mutations. -/
def applyBatchMutations (h : BatchHeap) (b : CassBatch) : List BatchMutation → BatchHeap × CassBatch
  | [] => (h, b)
  | m :: ms =>
      let step := applyBatchMutation h b m
      applyBatchMutations step.1 step.2 ms

lemma listModify_length (f : α → α) : ∀ (l : List α) (r : Nat),
    (listModify f l r).length = l.length
  | [], _ => rfl
  | _ :: _, 0 => rfl
  | _ :: as, n + 1 => congrArg (· + 1) (listModify_length f as n)

lemma listModify_get?_ne (f : α → α) :
    ∀ (l : List α) (r i : Nat), r ≠ i → (listModify f l r).get? i = l.get? i
  | [], _, _, _ => rfl
  | _ :: _, 0, 0, hne => absurd rfl hne
  | _ :: _, 0, _ + 1, _ => rfl
  | _ :: _, _ + 1, 0, _ => rfl
  | _ :: as, r + 1, i + 1, hne =>
      listModify_get?_ne f as r i (fun hri => hne (congrArg (· + 1) hri))

lemma listModify_get?_eq (f : α → α) :
    ∀ (l : List α) (r : Nat), (listModify f l r).get? r = (l.get? r).map f
  | [], _ => rfl
  | _ :: _, 0 => rfl
  | _ :: as, r + 1 => listModify_get?_eq f as r

lemma heapValue_strongModify (h : BatchHeap) (r i : Nat) (g : Nat → Nat) :
    heapValue (listModify (fun b => { b with strong := g b.strong }) h r) i =
      heapValue h i := by
  unfold heapValue
  rcases eq_or_ne r i with rfl | hne
  · rw [listModify_get?_eq]
    cases h.get? r <;> rfl
  · rw [listModify_get?_ne _ h r i hne]

lemma heapValue_append_lt (h : BatchHeap) (blk : ArcBlock) (i : Nat)
    (hi : i < h.length) :
    heapValue (h ++ [blk]) i = heapValue h i := by
  unfold heapValue
  rw [List.get?_append hi]

lemma heapValue_lt_isSome (h : BatchHeap) (i : Nat) (hi : i < h.length) :
    ∃ v, heapValue h i = some v := by
  refine ⟨(h.get ⟨i, hi⟩).value, ?_⟩
  unfold heapValue
  rw [List.get?_eq_get hi]
  rfl

lemma arcMakeMut_frame (h : BatchHeap) (r snap : Nat) (f : CassBatchState → CassBatchState)
    (hsnap : snap < h.length)
    (hcond : r ≠ snap ∨ 2 ≤ heapStrong h snap) :
    heapValue (arcMakeMut h r f).1 snap = heapValue h snap ∧
    (arcMakeMut h r f).2 ≠ snap ∧
    snap < (arcMakeMut h r f).1.length := by
  have hrs : r ≠ snap ∨ heapStrong h r ≠ 1 := by
    rcases hcond with hne | h2
    · exact Or.inl hne
    · rcases eq_or_ne r snap with rfl | hne
      · exact Or.inr (by omega)
      · exact Or.inl hne
  unfold arcMakeMut
  split
  · rename_i hstrong
    have hne : r ≠ snap := by
      rcases hrs with hne | hns
      · exact hne
      · exact absurd hstrong hns
    refine ⟨?_, hne, ?_⟩
    · unfold heapValue
      rw [listModify_get?_ne _ h r snap hne]
    · simpa [listModify_length] using hsnap
  · rename_i hstrong
    cases hv : heapValue h r with
    | some v =>
        have hlen : (listModify (fun b => { b with strong := b.strong - 1 }) h r).length
            = h.length := listModify_length _ h r
        refine ⟨?_, ?_, ?_⟩
        · show heapValue (listModify (fun b => { b with strong := b.strong - 1 }) h r
              ++ [({ value := f v, strong := 1 } : ArcBlock)]) snap = heapValue h snap
          rw [heapValue_append_lt _ _ snap (by omega)]
          exact heapValue_strongModify h r snap (fun s => s - 1)
        · show (listModify (fun b => { b with strong := b.strong - 1 }) h r).length ≠ snap
          omega
        · show snap < (listModify (fun b => { b with strong := b.strong - 1 }) h r
              ++ [({ value := f v, strong := 1 } : ArcBlock)]).length
          rw [List.length_append, hlen]
          omega
    | none =>
        have hner : h.length ≤ r := by
          by_contra hlt
          rcases heapValue_lt_isSome h r (by omega) with ⟨v, hv2⟩
          rw [hv] at hv2
          exact Option.noConfusion hv2
        refine ⟨rfl, ?_, hsnap⟩
        show r ≠ snap
        omega

/-- The invariant carried while a snapshot of block `snap` is outstanding: the
block is allocated, and if the handle still points at it, it is aliased. -/
def SnapInv (h : BatchHeap) (b : CassBatch) (snap : Nat) : Prop :=
  snap < h.length ∧ (b.state ≠ snap ∨ 2 ≤ heapStrong h snap)

lemma makeMutStep_snap_frame (h : BatchHeap) (b : CassBatch) (snap : Nat)
    (f : CassBatchState → CassBatchState) (hinv : SnapInv h b snap) :
    heapValue (arcMakeMut h b.state f).1 snap = heapValue h snap ∧
    SnapInv (arcMakeMut h b.state f).1 { b with state := (arcMakeMut h b.state f).2 } snap := by
  obtain ⟨hsnap, hcond⟩ := hinv
  obtain ⟨hval, hne, hlt⟩ := arcMakeMut_frame h b.state snap f hsnap hcond
  exact ⟨hval, hlt, Or.inl hne⟩

lemma applyBatchMutation_snap_frame (h : BatchHeap) (b : CassBatch) (snap : Nat)
    (m : BatchMutation) (hinv : SnapInv h b snap) :
    heapValue (applyBatchMutation h b m).1 snap = heapValue h snap ∧
    SnapInv (applyBatchMutation h b m).1 (applyBatchMutation h b m).2 snap := by
  cases m with
  | setConsistency c =>
      show heapValue (cass_batch_set_consistency h b c).1 snap = _ ∧
        SnapInv (cass_batch_set_consistency h b c).1 (cass_batch_set_consistency h b c).2.1 snap
      unfold cass_batch_set_consistency
      cases cassConsistencyTryInto c with
      | none => exact ⟨rfl, hinv⟩
      | some c2 => exact makeMutStep_snap_frame h b snap (stateSetConsistency c2) hinv
  | setSerialConsistency c =>
      show heapValue (cass_batch_set_serial_consistency h b c).1 snap = _ ∧
        SnapInv (cass_batch_set_serial_consistency h b c).1
          (cass_batch_set_serial_consistency h b c).2.1 snap
      unfold cass_batch_set_serial_consistency
      cases cassConsistencyTryInto c with
      | none => exact ⟨rfl, hinv⟩
      | some c2 => exact makeMutStep_snap_frame h b snap (stateSetSerialConsistency c2) hinv
  | setTimestamp t =>
      exact makeMutStep_snap_frame h b snap (stateSetTimestamp t) hinv
  | setRequestTimeout t =>
      exact ⟨rfl, hinv.1, hinv.2⟩
  | setIsIdempotent v =>
      exact makeMutStep_snap_frame h b snap (stateSetIsIdempotent v) hinv
  | setTracing v =>
      exact makeMutStep_snap_frame h b snap (stateSetTracing v) hinv
  | addStatement stmt =>
      exact makeMutStep_snap_frame h b snap (stateAddStatement stmt) hinv

lemma applyBatchMutations_snap_frame (snap : Nat) :
    ∀ (ms : List BatchMutation) (h : BatchHeap) (b : CassBatch), SnapInv h b snap →
    heapValue (applyBatchMutations h b ms).1 snap = heapValue h snap := by
  intro ms
  induction ms with
  | nil => intro h b _; rfl
  | cons m ms ih =>
      intro h b hinv
      obtain ⟨hval, hinv2⟩ := applyBatchMutation_snap_frame h b snap m hinv
      have step : applyBatchMutations h b (m :: ms)
          = applyBatchMutations (applyBatchMutation h b m).1 (applyBatchMutation h b m).2 ms :=
        rfl
      rw [step, ih (applyBatchMutation h b m).1 (applyBatchMutation h b m).2 hinv2, hval]

/-- C4: mutating a batch handle whose inner state is uniquely held
(strong count 1) updates the block in place — same block id, no new
allocation; mutating while one snapshot alias is outstanding (taken by
`cass_session_execute_batch` via `state.clone()`) allocates exactly one new
block, and the snapshot block's contents are unchanged by that mutation and by
every later mutation of the handle. -/
theorem cass_batch_set_consistency_cow (h : BatchHeap) (b : CassBatch) (c c2 : Nat)
    (hvalid : b.state < h.length)
    (hunique : heapStrong h b.state = 1)
    (hc : cassConsistencyTryInto c = some c2) :
    ((cass_batch_set_consistency h b c).1.length = h.length ∧
      (cass_batch_set_consistency h b c).2.1.state = b.state ∧
      heapValue (cass_batch_set_consistency h b c).1 b.state =
        (heapValue h b.state).map (stateSetConsistency c2)) ∧
    ((cass_batch_set_consistency (arcClone h b.state) b c).1.length = h.length + 1 ∧
      heapValue (cass_batch_set_consistency (arcClone h b.state) b c).1 b.state =
        heapValue h b.state ∧
      ∀ ms : List BatchMutation,
        heapValue (applyBatchMutations
            (cass_batch_set_consistency (arcClone h b.state) b c).1
            (cass_batch_set_consistency (arcClone h b.state) b c).2.1 ms).1 b.state =
          heapValue h b.state) := by
  obtain ⟨blk, hblk⟩ : ∃ blk, h.get? b.state = some blk :=
    ⟨h.get ⟨b.state, hvalid⟩, List.get?_eq_get hvalid⟩
  constructor
  · have ha : cass_batch_set_consistency h b c
        = (listModify (fun bl => { bl with value := stateSetConsistency c2 bl.value })
            h b.state, { b with state := b.state }, .CASS_OK) := by
      unfold cass_batch_set_consistency
      rw [hc]
      show (let m := arcMakeMut h b.state (stateSetConsistency c2)
        (m.1, { b with state := m.2 }, CassError.CASS_OK)) = _
      unfold arcMakeMut
      rw [if_pos hunique]
    rw [ha]
    refine ⟨listModify_length _ h b.state, rfl, ?_⟩
    unfold heapValue
    rw [listModify_get?_eq, hblk]
    rfl
  · set h1 := arcClone h b.state with hh1
    have hlen1 : h1.length = h.length := listModify_length _ h b.state
    have hstrong_h : heapStrong h b.state = blk.strong := by
      unfold heapStrong
      rw [hblk]
      rfl
    have hstrong1 : heapStrong h1 b.state = blk.strong + 1 := by
      unfold heapStrong
      rw [hh1]
      unfold arcClone
      rw [listModify_get?_eq, hblk]
      rfl
    have hs2 : 2 ≤ heapStrong h1 b.state := by omega
    have hval1 : ∀ i, heapValue h1 i = heapValue h i := fun i =>
      heapValue_strongModify h b.state i (fun s => s + 1)
    have hv1 : heapValue h1 b.state = some blk.value := by
      rw [hval1]
      unfold heapValue
      rw [hblk]
      rfl
    have hset : cass_batch_set_consistency h1 b c
        = ((arcMakeMut h1 b.state (stateSetConsistency c2)).1,
            { b with state := (arcMakeMut h1 b.state (stateSetConsistency c2)).2 },
            .CASS_OK) := by
      unfold cass_batch_set_consistency
      rw [hc]
    have hsnap1 : b.state < h1.length := by omega
    have hinv1 : SnapInv h1 b b.state := ⟨hsnap1, Or.inr hs2⟩
    obtain ⟨hframe_val, hinv2⟩ :=
      makeMutStep_snap_frame h1 b b.state (stateSetConsistency c2) hinv1
    have hm : arcMakeMut h1 b.state (stateSetConsistency c2)
        = (listModify (fun bl => { bl with strong := bl.strong - 1 }) h1 b.state
            ++ [({ value := stateSetConsistency c2 blk.value, strong := 1 } : ArcBlock)],
           (listModify (fun bl => { bl with strong := bl.strong - 1 }) h1 b.state).length) := by
      unfold arcMakeMut
      rw [if_neg (by omega), hv1]
      rfl
    refine ⟨?_, ?_, ?_⟩
    · rw [hset, hm]
      show (listModify (fun bl => { bl with strong := bl.strong - 1 }) h1 b.state
          ++ [({ value := stateSetConsistency c2 blk.value, strong := 1 } : ArcBlock)]).length
        = h.length + 1
      rw [List.length_append, listModify_length]
      simp [hlen1]
    · rw [hset]
      show heapValue (arcMakeMut h1 b.state (stateSetConsistency c2)).1 b.state
        = heapValue h b.state
      rw [hframe_val, hval1]
    · intro ms
      rw [hset]
      show heapValue (applyBatchMutations
          (arcMakeMut h1 b.state (stateSetConsistency c2)).1
          { b with state := (arcMakeMut h1 b.state (stateSetConsistency c2)).2 } ms).1 b.state
        = heapValue h b.state
      rw [applyBatchMutations_snap_frame b.state ms _ _ hinv2, hframe_val, hval1]

/-- C9 invariant at the value level: a batch state holds exactly one
bound-values vector per statement. -/
def BoundValuesInv (s : CassBatchState) : Prop :=
  s.batch.statements.length = s.bound_values.length

/-- C9 invariant at the heap level: every allocated inner-state block
satisfies `BoundValuesInv`. -/
def HeapInv (h : BatchHeap) : Prop :=
  ∀ r s, heapValue h r = some s → BoundValuesInv s

lemma heapValue_append (h : BatchHeap) (blk : ArcBlock) (i : Nat) :
    heapValue (h ++ [blk]) i =
      if i < h.length then heapValue h i
      else if i = h.length then some blk.value else none := by
  rcases Nat.lt_or_ge i h.length with hlt | hge
  · rw [if_pos hlt]
    exact heapValue_append_lt h blk i hlt
  · rw [if_neg (by omega)]
    unfold heapValue
    rw [List.get?_append_right hge]
    rcases eq_or_ne i h.length with rfl | hne
    · simp
    · rw [if_neg hne]
      have : 1 ≤ i - h.length := by omega
      cases hd : i - h.length with
      | zero => omega
      | succ k => simp

lemma heapInv_arcAlloc (h : BatchHeap) (v : CassBatchState)
    (hh : HeapInv h) (hv : BoundValuesInv v) : HeapInv (arcAlloc h v).1 := by
  intro r s hrs
  show BoundValuesInv s
  rw [show (arcAlloc h v).1 = h ++ [({ value := v, strong := 1 } : ArcBlock)] from rfl] at hrs
  rw [heapValue_append] at hrs
  split at hrs
  · exact hh r s hrs
  · split at hrs
    · cases hrs
      exact hv
    · exact Option.noConfusion hrs

lemma heapInv_strongModify (h : BatchHeap) (r : Nat) (g : Nat → Nat)
    (hh : HeapInv h) :
    HeapInv (listModify (fun b => { b with strong := g b.strong }) h r) := by
  intro i s his
  rw [heapValue_strongModify h r i g] at his
  exact hh i s his

lemma heapInv_arcMakeMut (h : BatchHeap) (r : Nat) (f : CassBatchState → CassBatchState)
    (hf : ∀ s, BoundValuesInv s → BoundValuesInv (f s))
    (hh : HeapInv h) : HeapInv (arcMakeMut h r f).1 := by
  unfold arcMakeMut
  split
  · intro i s his
    unfold heapValue at his
    rcases eq_or_ne r i with rfl | hne
    · rw [listModify_get?_eq] at his
      cases hgr : h.get? r with
      | none =>
          rw [hgr] at his
          exact Option.noConfusion his
      | some blk =>
          rw [hgr] at his
          cases his
          exact hf blk.value (hh r blk.value (by unfold heapValue; rw [hgr]; rfl))
    · rw [listModify_get?_ne _ h r i hne] at his
      exact hh i s his
  · cases hv : heapValue h r with
    | some v =>
        exact heapInv_arcAlloc _ (f v)
          (heapInv_strongModify h r (fun s => s - 1) hh)
          (hf v (hh r v hv))
    | none => exact hh

/-- C9: the freshly allocated inner state of `cass_batch_new` has zero
statements and zero bound-values vectors; `cass_batch_add_statement` appends
exactly one statement and one bound-values vector, preserving the invariant;
and every caller-side mutation of the handle keeps every inner-state block
satisfying the invariant. -/
theorem cass_batch_bound_values_invariant :
    (∀ bt, (Batch.new bt).statements.length = 0 ∧
      ({ batch := Batch.new bt, bound_values := [] } : CassBatchState).bound_values.length
        = 0 ∧
      BoundValuesInv { batch := Batch.new bt, bound_values := [] }) ∧
    (∀ h t, HeapInv h → HeapInv (cass_batch_new h t).1) ∧
    (∀ s stmt, BoundValuesInv s →
      (stateAddStatement stmt s).batch.statements.length = s.batch.statements.length + 1 ∧
      (stateAddStatement stmt s).bound_values.length = s.bound_values.length + 1 ∧
      BoundValuesInv (stateAddStatement stmt s)) ∧
    (∀ h b m, HeapInv h → HeapInv (applyBatchMutation h b m).1) := by
  refine ⟨fun bt => ⟨rfl, rfl, rfl⟩, fun h t hh => ?_, fun s stmt hs => ?_, fun h b m hh => ?_⟩
  · unfold cass_batch_new
    cases make_batch_type t with
    | some batch_type => exact heapInv_arcAlloc h _ hh rfl
    | none => exact hh
  · refine ⟨by simp [stateAddStatement], by simp [stateAddStatement], ?_⟩
    unfold BoundValuesInv at hs ⊢
    simp [stateAddStatement, hs]
  · cases m with
    | setConsistency c =>
        show HeapInv (cass_batch_set_consistency h b c).1
        unfold cass_batch_set_consistency
        cases cassConsistencyTryInto c with
        | none => exact hh
        | some c2 =>
            exact heapInv_arcMakeMut h b.state _ (fun s hs => hs) hh
    | setSerialConsistency c =>
        show HeapInv (cass_batch_set_serial_consistency h b c).1
        unfold cass_batch_set_serial_consistency
        cases cassConsistencyTryInto c with
        | none => exact hh
        | some c2 =>
            exact heapInv_arcMakeMut h b.state _ (fun s hs => hs) hh
    | setTimestamp t =>
        exact heapInv_arcMakeMut h b.state _ (fun s hs => hs) hh
    | setRequestTimeout t => exact hh
    | setIsIdempotent v =>
        exact heapInv_arcMakeMut h b.state _ (fun s hs => hs) hh
    | setTracing v =>
        exact heapInv_arcMakeMut h b.state _ (fun s hs => hs) hh
    | addStatement stmt =>
        refine heapInv_arcMakeMut h b.state _ (fun s hs => ?_) hh
        unfold BoundValuesInv at hs ⊢
        simp [stateAddStatement, hs]

/-- The heap after `cass_batch_new` on the empty heap with the LOGGED type. -/
def sampleBatchHeap : BatchHeap := (cass_batch_new [] 0).1

/-- The handle returned by that `cass_batch_new` call (block id 0). -/
def sampleBatch : CassBatch := { state := 0, batch_request_timeout_ms := none }

/-- A concrete statement with one bound value. -/
def sampleStatement : CassStatement := { statement := .Simple 1, bound_values := [7] }

theorem cass_batch_set_consistency_cow_witness :
    sampleBatch.state < sampleBatchHeap.length ∧
    heapStrong sampleBatchHeap sampleBatch.state = 1 ∧
    cassConsistencyTryInto 3 = some 3 ∧
    (cass_batch_set_consistency sampleBatchHeap sampleBatch 3).1.length
      = sampleBatchHeap.length ∧
    (cass_batch_set_consistency (arcClone sampleBatchHeap sampleBatch.state)
      sampleBatch 3).1.length = sampleBatchHeap.length + 1 ∧
    heapValue (applyBatchMutations
        (cass_batch_set_consistency (arcClone sampleBatchHeap sampleBatch.state)
          sampleBatch 3).1
        (cass_batch_set_consistency (arcClone sampleBatchHeap sampleBatch.state)
          sampleBatch 3).2.1
        [.setTimestamp 5]).1 sampleBatch.state
      = heapValue sampleBatchHeap sampleBatch.state := by
  have h := cass_batch_set_consistency_cow sampleBatchHeap sampleBatch 3 3
    (by decide) (by decide) (by decide)
  exact ⟨by decide, by decide, by decide, h.1.1, h.2.1, h.2.2.2 [.setTimestamp 5]⟩

theorem cass_batch_bound_values_invariant_witness :
    BoundValuesInv { batch := Batch.new 0, bound_values := [] } ∧
    HeapInv sampleBatchHeap ∧
    (stateAddStatement sampleStatement
      { batch := Batch.new 0, bound_values := [] }).batch.statements.length = 1 ∧
    (stateAddStatement sampleStatement
      { batch := Batch.new 0, bound_values := [] }).bound_values.length = 1 ∧
    HeapInv (applyBatchMutation sampleBatchHeap sampleBatch
      (.addStatement sampleStatement)).1 := by
  have h := cass_batch_bound_values_invariant
  have hempty : HeapInv ([] : BatchHeap) := by
    intro r s hrs
    rw [show heapValue [] r = none from by cases r <;> rfl] at hrs
    exact Option.noConfusion hrs
  have hheap : HeapInv sampleBatchHeap := h.2.1 [] 0 hempty
  exact ⟨rfl, hheap,
    (h.2.2.1 { batch := Batch.new 0, bound_values := [] } sampleStatement rfl).1,
    (h.2.2.1 { batch := Batch.new 0, bound_values := [] } sampleStatement rfl).2.1,
    h.2.2.2 sampleBatchHeap sampleBatch (.addStatement sampleStatement) hheap⟩

/-! ## Cluster configuration and sessions (cluster.rs, session.rs) -/

/-- Modelled from the spec: exec_profile.rs is not under src/.  A
`CassExecProfile` is the per-profile builder stored in the cluster map; its
settings are opaque here. -/
structure CassExecProfile where
  profile : Nat
deriving Repr, DecidableEq

/-- `ExecutionProfileHandle` of the external driver: the resolved, built form
of a profile. -/
structure ExecutionProfileHandle where
  handle : Nat
deriving Repr, DecidableEq

/-- Modelled from the spec: building a profile builder into a handle
(`builder.build(..).into_handle()` in `CassSessionInner::connect_fut`); the
external build step is opaque, so it is carried through as the payload. -/
def CassExecProfile.build (p : CassExecProfile) : ExecutionProfileHandle :=
  { handle := p.profile }

/-- `SessionConfig` of the external driver: the fields written by the
keepalive setters of cluster.rs (durations in seconds as `Option Nat`,
`None` = disabled). -/
structure SessionConfig where
  keepalive_interval : Option Nat
  keepalive_timeout : Option Nat
deriving Repr, DecidableEq

/-- `SessionBuilder` of the external driver, reduced to its `config`. -/
structure SessionBuilder where
  config : SessionConfig
deriving Repr, DecidableEq

/-- `ExecutionProfileBuilder` of the external driver, reduced to the
`request_timeout` field written by `cass_cluster_set_request_timeout`
(milliseconds, `None` = no timeout). -/
structure ExecutionProfileBuilder where
  request_timeout : Option Nat
deriving Repr, DecidableEq

/-- `CassCluster` (cluster.rs), restricted to the configuration components
read or written by the verified functions. -/
structure CassCluster where
  session_builder : SessionBuilder
  default_execution_profile_builder : ExecutionProfileBuilder
  execution_profile_map : List (String × CassExecProfile)
  contact_points : List String
  port : Nat
  client_id : Option Nat
deriving Repr, DecidableEq

/-- `cass_cluster_new` (cluster.rs, lines 176-213): the defaults of
cassandra.h — 12000 ms request timeout, 30 s keepalive interval, 60 s
keepalive timeout, port 9042, no profiles. -/
def cass_cluster_new : CassCluster :=
  { session_builder :=
      { config := { keepalive_interval := some 30, keepalive_timeout := some 60 } },
    default_execution_profile_builder := { request_timeout := some 12000 },
    execution_profile_map := [],
    contact_points := [],
    port := 9042,
    client_id := none }

/-- `cass_cluster_set_request_timeout` (cluster.rs, lines 409-420):
`0 -> no timeout`, otherwise the duration in milliseconds, written into the
default execution-profile builder. -/
def cass_cluster_set_request_timeout (cluster : CassCluster) (timeout_ms : Nat) :
    CassCluster :=
  { cluster with
      default_execution_profile_builder :=
        { cluster.default_execution_profile_builder with
            request_timeout := if 0 < timeout_ms then some timeout_ms else none } }

/-- `cass_cluster_set_connection_heartbeat_interval` (cluster.rs, lines
378-387): `0` disables the keepalive interval, a positive value is the
interval in seconds. -/
def cass_cluster_set_connection_heartbeat_interval (cluster : CassCluster)
    (interval_secs : Nat) : CassCluster :=
  { cluster with
      session_builder :=
        { cluster.session_builder with
            config :=
              { cluster.session_builder.config with
                  keepalive_interval :=
                    if 0 < interval_secs then some interval_secs else none } } }

/-- `cass_cluster_set_connection_idle_timeout` (cluster.rs, lines 389-398). -/
def cass_cluster_set_connection_idle_timeout (cluster : CassCluster)
    (timeout_secs : Nat) : CassCluster :=
  { cluster with
      session_builder :=
        { cluster.session_builder with
            config :=
              { cluster.session_builder.config with
                  keepalive_timeout :=
                    if 0 < timeout_secs then some timeout_secs else none } } }

/-- C8: the three numeric setters treat `0` as the disabled/default sentinel
(`None`) and store any positive value as the corresponding duration. -/
theorem cluster_zero_sentinel_setters (cluster : CassCluster) (t : Nat) :
    ((t = 0 →
        (cass_cluster_set_request_timeout cluster t).default_execution_profile_builder.request_timeout
          = none) ∧
      (0 < t →
        (cass_cluster_set_request_timeout cluster t).default_execution_profile_builder.request_timeout
          = some t)) ∧
    ((t = 0 →
        (cass_cluster_set_connection_heartbeat_interval cluster t).session_builder.config.keepalive_interval
          = none) ∧
      (0 < t →
        (cass_cluster_set_connection_heartbeat_interval cluster t).session_builder.config.keepalive_interval
          = some t)) ∧
    ((t = 0 →
        (cass_cluster_set_connection_idle_timeout cluster t).session_builder.config.keepalive_timeout
          = none) ∧
      (0 < t →
        (cass_cluster_set_connection_idle_timeout cluster t).session_builder.config.keepalive_timeout
          = some t)) := by
  refine ⟨⟨fun h0 => ?_, fun hpos => ?_⟩, ⟨fun h0 => ?_, fun hpos => ?_⟩,
    ⟨fun h0 => ?_, fun hpos => ?_⟩⟩ <;>
    simp [cass_cluster_set_request_timeout,
      cass_cluster_set_connection_heartbeat_interval,
      cass_cluster_set_connection_idle_timeout, *]

theorem cluster_zero_sentinel_setters_witness :
    (cass_cluster_set_request_timeout cass_cluster_new 0).default_execution_profile_builder.request_timeout
      = none ∧
    (cass_cluster_set_request_timeout cass_cluster_new 7000).default_execution_profile_builder.request_timeout
      = some 7000 ∧
    (cass_cluster_set_connection_heartbeat_interval cass_cluster_new 0).session_builder.config.keepalive_interval
      = none ∧
    (cass_cluster_set_connection_heartbeat_interval cass_cluster_new 15).session_builder.config.keepalive_interval
      = some 15 ∧
    (cass_cluster_set_connection_idle_timeout cass_cluster_new 0).session_builder.config.keepalive_timeout
      = none ∧
    (cass_cluster_set_connection_idle_timeout cass_cluster_new 90).session_builder.config.keepalive_timeout
      = some 90 :=
  ⟨(cluster_zero_sentinel_setters cass_cluster_new 0).1.1 rfl,
    (cluster_zero_sentinel_setters cass_cluster_new 7000).1.2 (by decide),
    (cluster_zero_sentinel_setters cass_cluster_new 0).2.1.1 rfl,
    (cluster_zero_sentinel_setters cass_cluster_new 15).2.1.2 (by decide),
    (cluster_zero_sentinel_setters cass_cluster_new 0).2.2.1 rfl,
    (cluster_zero_sentinel_setters cass_cluster_new 90).2.2.2 (by decide)⟩

/-- Association-list lookup, the embedding of `HashMap::get`. -/
def assocLookup (k : String) : List (String × α) → Option α
  | [] => none
  | (k2, v) :: rest => if k2 = k then some v else assocLookup k rest

/-- Association-list insert, the embedding of `HashMap::insert` (replace the
existing binding or append a new one). -/
def assocInsert (k : String) (v : α) : List (String × α) → List (String × α)
  | [] => [(k, v)]
  | (k2, v2) :: rest =>
      if k2 = k then (k, v) :: rest else (k2, v2) :: assocInsert k v rest

/-- Modelled from the spec: `ExecProfileName::try_from` (exec_profile.rs, not
under src/) rejects the empty string; a null name pointer arrives as `none`. -/
def execProfileNameTryFrom (name : Option String) : Option String :=
  name.bind (fun n => if n = "" then none else some n)

/-- `cass_cluster_set_execution_profile_n` (cluster.rs, lines 835-859): a null
or empty name, or a null profile, is `CASS_ERROR_LIB_BAD_PARAMS`; otherwise
the profile is cloned into the cluster's map. -/
def cass_cluster_set_execution_profile (cluster : CassCluster)
    (name : Option String) (profile : Option CassExecProfile) :
    CassCluster × CassError :=
  match execProfileNameTryFrom name with
  | none => (cluster, .CASS_ERROR_LIB_BAD_PARAMS)
  | some n =>
      match profile with
      | none => (cluster, .CASS_ERROR_LIB_BAD_PARAMS)
      | some p =>
          ({ cluster with
              execution_profile_map := assocInsert n p cluster.execution_profile_map },
            .CASS_OK)

/-- `CassSessionInner` (session.rs): the connected session state; the network
session of the external driver is out of scope, the execution-profile map
(already built into handles) and the client id are carried. -/
structure CassSessionInner where
  exec_profile_map : List (String × ExecutionProfileHandle)
  client_id : Nat
deriving Repr, DecidableEq

/-- `CassSessionInner::connect_fut` (session.rs, lines 94-137), reduced to its
session-state effect: fail when a session is already connected (or
connecting/closing), otherwise build every profile of the cluster's map
snapshot into a handle and install the new inner state. -/
def connect_fut (session_opt : Option CassSessionInner)
    (exec_profile_builder_map : List (String × CassExecProfile))
    (client_id : Nat) : Except CassError CassSessionInner :=
  match session_opt with
  | some _ => .error .CASS_ERROR_LIB_UNABLE_TO_CONNECT
  | none =>
      .ok { exec_profile_map :=
              exec_profile_builder_map.map (fun nb => (nb.1, nb.2.build)),
            client_id := client_id }

/-- The pair of one cluster configuration handle and one session handle, for
the frame claims about connect-time snapshots. -/
structure DriverState where
  cluster : CassCluster
  session : Option CassSessionInner
deriving Repr, DecidableEq

/-- `CassSessionInner::connect` + `cass_session_connect` (session.rs, lines
70-92 and 149-157): the cluster's execution-profile map is cloned at connect
time (`cluster.execution_profile_map().clone()`) and handed to `connect_fut`;
`fresh_client_id` stands for the random uuid drawn when the cluster has none. -/
def cass_session_connect (st : DriverState) (fresh_client_id : Nat) :
    DriverState × CassError :=
  match connect_fut st.session st.cluster.execution_profile_map
      (st.cluster.client_id.getD fresh_client_id) with
  | .ok inner => ({ st with session := some inner }, .CASS_OK)
  | .error e => (st, e)

/-- `cass_cluster_set_execution_profile` lifted to the driver state: it only
touches the cluster configuration. -/
def driver_set_execution_profile (st : DriverState) (name : Option String)
    (profile : Option CassExecProfile) : DriverState × CassError :=
  let r := cass_cluster_set_execution_profile st.cluster name profile
  ({ st with cluster := r.1 }, r.2)

/-- C5: connecting succeeds on a disconnected session and captures the
session's execution-profile map as the built clone of the cluster's map at
connect time; registering a profile on the cluster afterwards changes the
cluster's map but leaves the already-connected session's state — in
particular its execution-profile map — unchanged. -/
theorem session_profile_map_snapshot (st : DriverState) (fresh_client_id : Nat)
    (name : String) (profile : CassExecProfile)
    (hdisc : st.session = none) (hname : name ≠ "") :
    (cass_session_connect st fresh_client_id).2 = .CASS_OK ∧
    (cass_session_connect st fresh_client_id).1.session =
      some { exec_profile_map :=
               st.cluster.execution_profile_map.map (fun nb => (nb.1, nb.2.build)),
             client_id := st.cluster.client_id.getD fresh_client_id } ∧
    (driver_set_execution_profile (cass_session_connect st fresh_client_id).1
        (some name) (some profile)).2 = .CASS_OK ∧
    (driver_set_execution_profile (cass_session_connect st fresh_client_id).1
        (some name) (some profile)).1.cluster.execution_profile_map =
      assocInsert name profile
        (cass_session_connect st fresh_client_id).1.cluster.execution_profile_map ∧
    (driver_set_execution_profile (cass_session_connect st fresh_client_id).1
        (some name) (some profile)).1.session =
      (cass_session_connect st fresh_client_id).1.session := by
  have hconn : cass_session_connect st fresh_client_id =
      ({ st with
          session := some ({ exec_profile_map :=
                               st.cluster.execution_profile_map.map
                                 (fun nb => (nb.1, nb.2.build)),
                             client_id :=
                               st.cluster.client_id.getD fresh_client_id }
                           : CassSessionInner) },
        .CASS_OK) := by
    unfold cass_session_connect connect_fut
    rw [hdisc]
  have hset : execProfileNameTryFrom (some name) = some name := by
    simp [execProfileNameTryFrom, hname]
  rw [hconn]
  refine ⟨rfl, rfl, ?_, ?_, ?_⟩ <;>
    simp [driver_set_execution_profile, cass_cluster_set_execution_profile, hset]

theorem session_profile_map_snapshot_witness :
    ({ cluster := cass_cluster_new, session := none } : DriverState).session = none ∧
    ("prof" : String) ≠ "" ∧
    (cass_session_connect { cluster := cass_cluster_new, session := none } 42).1.session =
      some { exec_profile_map := [], client_id := 42 } ∧
    (driver_set_execution_profile
        (cass_session_connect { cluster := cass_cluster_new, session := none } 42).1
        (some "prof") (some { profile := 5 })).1.session =
      (cass_session_connect { cluster := cass_cluster_new, session := none } 42).1.session := by
  have h := session_profile_map_snapshot { cluster := cass_cluster_new, session := none }
    42 "prof" { profile := 5 } rfl (by decide)
  exact ⟨rfl, by decide, h.2.1, h.2.2.2.2⟩

/-- `CassSessionInner::resolve_exec_profile` (session.rs, lines 37-49): look
the name up in the session's map, or fail with
`CASS_ERROR_LIB_EXECUTION_PROFILE_INVALID`. -/
def resolve_exec_profile (inner : CassSessionInner) (name : String) :
    Except (CassError × String) ExecutionProfileHandle :=
  match assocLookup name inner.exec_profile_map with
  | some handle => .ok handle
  | none =>
      .error (.CASS_ERROR_LIB_EXECUTION_PROFILE_INVALID, name ++ " does not exist")

/-- Modelled from the spec: the cached per-statement/per-batch profile state
(`PerStatementExecProfile` in exec_profile.rs, not under src/): either the
still-unresolved name or the resolved handle. -/
inductive ExecProfileState where
  | name : String → ExecProfileState
  | handle : ExecutionProfileHandle → ExecProfileState
deriving Repr, DecidableEq

/-- Modelled from the spec:
`PerStatementExecProfile::get_or_resolve_profile_handle` (exec_profile.rs, not
under src/): a cached handle is returned as is; an unresolved name is resolved
through `CassSessionInner::resolve_exec_profile` and the handle is cached on
success, while on failure the cached name is left unchanged so the resolution
stays retryable. -/
def get_or_resolve_profile_handle (inner : CassSessionInner)
    (profile : ExecProfileState) :
    Except (CassError × String) (ExecutionProfileHandle × ExecProfileState) :=
  match profile with
  | .handle h => .ok (h, .handle h)
  | .name n =>
      match resolve_exec_profile inner n with
      | .ok h => .ok (h, .handle h)
      | .error e => .error e

/-- The profile-resolution skeleton of `cass_session_execute` /
`cass_session_execute_batch` (session.rs, lines 183-234 and 249-376): resolve
the per-request profile (if any) against the session, then run the underlying
operation, whose status is `op_status`; the first component is the status of
the whole execution, the second the per-statement/per-batch cached profile
state afterwards. -/
def executeWithProfile (inner : CassSessionInner)
    (profile : Option ExecProfileState) (op_status : CassError) :
    CassError × Option ExecProfileState :=
  match profile with
  | none => (op_status, none)
  | some p =>
      match get_or_resolve_profile_handle inner p with
      | .ok hs => (op_status, some hs.2)
      | .error e => (e.1, some p)

/-- C6: executing with an unregistered profile name fails with
`CASS_ERROR_LIB_EXECUTION_PROFILE_INVALID` and leaves the cached unresolved
name unchanged; executing the same cached state against a session whose map
contains the name resolves it and returns the underlying operational status,
never the profile-invalid status. -/
theorem execution_profile_resolution_retryable (inner1 inner2 : CassSessionInner)
    (n : String) (op_status : CassError) (handle : ExecutionProfileHandle)
    (h1 : assocLookup n inner1.exec_profile_map = none)
    (h2 : assocLookup n inner2.exec_profile_map = some handle) :
    executeWithProfile inner1 (some (.name n)) op_status =
      (.CASS_ERROR_LIB_EXECUTION_PROFILE_INVALID, some (.name n)) ∧
    executeWithProfile inner2
        (executeWithProfile inner1 (some (.name n)) op_status).2 op_status =
      (op_status, some (.handle handle)) := by
  have hfail : executeWithProfile inner1 (some (.name n)) op_status =
      (.CASS_ERROR_LIB_EXECUTION_PROFILE_INVALID, some (.name n)) := by
    simp [executeWithProfile, get_or_resolve_profile_handle, resolve_exec_profile, h1]
  refine ⟨hfail, ?_⟩
  rw [hfail]
  simp [executeWithProfile, get_or_resolve_profile_handle, resolve_exec_profile, h2]

/-- A session with no profiles registered. -/
def sampleSessionEmpty : CassSessionInner := { exec_profile_map := [], client_id := 0 }

/-- A session with the profile named `profile` registered. -/
def sampleSessionWithProfile : CassSessionInner :=
  { exec_profile_map := [("profile", { handle := 5 })], client_id := 0 }

theorem execution_profile_resolution_retryable_witness :
    assocLookup "profile" sampleSessionEmpty.exec_profile_map = none ∧
    assocLookup "profile" sampleSessionWithProfile.exec_profile_map =
      some { handle := 5 } ∧
    executeWithProfile sampleSessionEmpty (some (.name "profile"))
        .CASS_ERROR_SERVER_WRITE_FAILURE =
      (.CASS_ERROR_LIB_EXECUTION_PROFILE_INVALID, some (.name "profile")) ∧
    executeWithProfile sampleSessionWithProfile
        (executeWithProfile sampleSessionEmpty (some (.name "profile"))
          .CASS_ERROR_SERVER_WRITE_FAILURE).2 .CASS_ERROR_SERVER_WRITE_FAILURE =
      (.CASS_ERROR_SERVER_WRITE_FAILURE, some (.handle { handle := 5 })) := by
  have h := execution_profile_resolution_retryable sampleSessionEmpty
    sampleSessionWithProfile "profile" .CASS_ERROR_SERVER_WRITE_FAILURE
    { handle := 5 } (by decide) (by decide)
  exact ⟨by decide, by decide, h.1, h.2⟩
